import Mathlib

/-!
Verification of the order-transformation and delivery-scheduling pipeline of
the tiffinstash data-extraction repository.

The Python sources are shallowly embedded as executable Lean definitions:

* calendar dates are integers counting days since 1970-01-01 (the value
  pandas/Python dates normalise to, at day granularity); the proleptic
  Gregorian conversions `days_from_civil` / `civil_from_days` mirror the
  standard civil-calendar algorithms used by those libraries;
* `pd.to_datetime` on the date strings the pipeline produces is embedded as
  `parseDate`, which accepts ISO `YYYY-MM-DD` strings and fails (returns
  `none`) on everything else; `strftime("%Y-%m-%d")` is `formatDate`;
* DataFrame rows become structures of the fields the row functions read;
* SQL tables become lists of rows, where a row is an association list from
  column name to `Option String` (`none` = SQL NULL); `SELECT ... fetchone`
  is `List.find?`, `UPDATE ... WHERE` is a `List.map` guarded by the WHERE
  predicate, `INSERT` appends;
* database exceptions raised while processing one upload row are abstracted
  by a per-row failure oracle `f : InRow → Bool`.
-/

/-! ## Calendar dates

`days_from_civil` is the standard civil-from-Gregorian day count (days since
1970-01-01), `civil_from_days` its inverse.  Python's `date.weekday()` has
Monday = 0; day 0 (1970-01-01) was a Thursday, hence `pyWeekday`. -/

/-- Days since 1970-01-01 of the proleptic Gregorian date `y-m-d`. -/
def days_from_civil (y m d : Int) : Int :=
  let y' := if m ≤ 2 then y - 1 else y
  let era := y' / 400
  let yoe := y' - era * 400
  let doy := ((153 * (m + (if m > 2 then -3 else 9)) + 2)) / 5 + d - 1
  let doe := yoe * 365 + yoe / 4 - yoe / 100 + doy
  era * 146097 + doe - 719468

/-- Gregorian `(year, month, day)` of a day count since 1970-01-01. -/
def civil_from_days (z0 : Int) : Int × Int × Int :=
  let z := z0 + 719468
  let era := z / 146097
  let doe := z - era * 146097
  let yoe := (doe - doe / 1460 + doe / 36524 - doe / 146096) / 365
  let y := yoe + era * 400
  let doy := doe - (365 * yoe + yoe / 4 - yoe / 100)
  let mp := (5 * doy + 2) / 153
  let d := doy - (153 * mp + 2) / 5 + 1
  let m := mp + (if mp < 10 then 3 else -9)
  (y + (if m ≤ 2 then 1 else 0), m, d)

/-- Python's `weekday()` (Monday = 0 … Sunday = 6) of a day count. -/
def pyWeekday (z : Int) : Int := (z + 3) % 7

/-- `curr.weekday() < 5`: the day is a Monday-to-Friday weekday. -/
def isBusinessDay (z : Int) : Bool := pyWeekday z < 5

/-- Python's `str.strip()`: drop leading and trailing whitespace.
(Implemented over the character list so that it evaluates inside the
kernel.) -/
def pyStrip (s : String) : String :=
  ⟨((s.data.dropWhile Char.isWhitespace).reverse.dropWhile Char.isWhitespace).reverse⟩

/-- Python's `str.lower()` (ASCII case folding, which is all this data
uses). -/
def pyLower (s : String) : String := ⟨s.data.map Char.toLower⟩

/-- Split a character list at every `-`, like `str.split("-")`. -/
def splitDash : List Char → List (List Char)
  | [] => [[]]
  | c :: rest =>
    let r := splitDash rest
    if c = '-' then [] :: r
    else (c :: r.headD []) :: r.tail

/-- The numeric value of a nonempty all-digit character list. -/
def digitsVal? (cs : List Char) : Option Nat :=
  if cs ≠ [] ∧ cs.all Char.isDigit then
    some (cs.foldl (fun n c => 10 * n + (c.toNat - 48)) 0)
  else none

/-- Embedding of `pd.to_datetime` on the strings this pipeline feeds it:
ISO `YYYY-MM-DD` parses to its day count, everything else raises (= `none`). -/
def parseDate (s : String) : Option Int :=
  match splitDash s.data with
  | [ys, ms, ds] =>
    match digitsVal? ys, digitsVal? ms, digitsVal? ds with
    | some y, some m, some d =>
      if 1 ≤ m ∧ m ≤ 12 ∧ 1 ≤ d ∧ d ≤ 31 then
        some (days_from_civil (Int.ofNat y) (Int.ofNat m) (Int.ofNat d))
      else none
    | _, _, _ => none
  | _ => none

/-- Zero-pad a (nonnegative) number to two digits, as `strftime` does. -/
def pad2 (n : Int) : String := if n < 10 then "0" ++ toString n else toString n

/-- `strftime("%Y-%m-%d")` of a day count. -/
def formatDate (z : Int) : String :=
  let c := civil_from_days z
  toString c.1 ++ "-" ++ pad2 c.2.1 ++ "-" ++ pad2 c.2.2

/-! ## SubscriptionExpander
(`src/backend/src/processing/export_transformations.py`) -/

/-- The `sku_map` bundle table of `expand_subscriptions`. -/
def sku_map : List (String × List String) := [
  ("STASH-TD-TS01-W05-ONCA-VEG08", ["TPROS-TD-MT91-T01-ONCA-TPROS", "FIERY-TD-MT01-T01-ONCA-FGBVG", "LALKT-TD-MT31-T01-ONCA-SWAGT", "ANGTH-TD-MT40-T01-ONCA-ANGVG", "KRISK-TD-MT01-T01-ONCA-KRIVG"]),
  ("STASH-TD-TS02-W05-ONCA-VEG08", ["TPROS-TD-MT92-T01-ONCA-TPROS", "FIERY-TD-MT02-T01-ONCA-FGBVG", "LALKT-TD-MT30-T01-ONCA-SWAGT", "ANGTH-TD-MT41-T01-ONCA-ANGVG", "KRISK-TD-MT02-T01-ONCA-KRIVG"]),
  ("STASH-TD-TS03-W05-ONCA-VEG12", ["TPROS-TD-MT93-T01-ONCA-TPROS", "FIERY-TD-MT06-T01-ONCA-FGPVG", "LALKT-TD-MT01-T01-ONCA-LEELA", "ANGTH-TD-MT40-T01-ONCA-ANGVG", "KRISK-TD-MT07-T01-ONCA-KRIVG"]),
  ("STASH-TD-TS04-W05-ONCA-VEG12", ["TPROS-TD-MT94-T01-ONCA-TPROS", "FIERY-TD-MT09-T01-ONCA-FGPVG", "LALKT-TD-MT03-T01-ONCA-LEELA", "ANGTH-TD-MT47-T01-ONCA-ANGVG", "KRISK-TD-MT92-T01-ONCA-KRIVG"]),
  ("STASH-TD-TS05-W05-ONCA-VEG12", ["TPROS-TD-MT95-T01-ONCA-TPROS", "FIERY-TD-MT12-T01-ONCA-FGPVG", "LALKT-TD-MT04-T01-ONCA-LEELA", "ANGTH-TD-MT50-T01-ONCA-ANGVG", "KRISK-TD-MT93-T01-ONCA-KRIVG"]),
  ("STASH-TD-TS06-W05-ONCA-NVG12", ["LALKT-TD-MT20-T01-ONCA-LALIT", "FIERY-TD-MT19-T01-ONCA-FGPNV", "WAKHR-TD-MT19-T01-ONCA-KTDNV", "ANGTH-TD-MT58-T01-ONCA-ANGNV", "FEAST-TD-MT34-T01-ONCA-SPFNV"]),
  ("STASH-TD-TS07-W05-ONCA-NVG12", ["LALKT-TD-MT24-T01-ONCA-LALIT", "FIERY-TD-MT20-T01-ONCA-FGPNV", "WAKHR-TD-MT20-T01-ONCA-KTDNV", "ANGTH-TD-MT60-T01-ONCA-ANGNV", "FEAST-TD-MT21-T01-ONCA-SPFNV"]),
  ("STASH-TD-TS08-W05-ONCA-NVG12", ["LALKT-TD-MT83-T01-ONCA-LALIT", "FIERY-TD-MT23-T01-ONCA-FGPNV", "WAKHR-TD-MT23-T01-ONCA-KTDNV", "ANGTH-TD-MT61-T01-ONCA-ANGNV", "FEAST-TD-MT22-T01-ONCA-SPFNV"]),
  ("STASH-TD-TS09-W05-ONCA-GUJ01", ["SRIJI-TD-MT03-T01-ONCA-SRIJI", "SPBAR-TD-MT27-T01-ONCA-SBPGJ", "TSWAD-TD-MT04-T01-ONCA-FRESH", "RADHA-TD-MT08-T01-ONCA-RRBVG", "MUMMA-TD-MT04-T01-ONCA-MMGUJ"]),
  ("STASH-TD-TS10-W05-ONCA-VEG08", ["TPROS-TD-MT96-T01-ONCA-TPROS", "FIERY-TD-MT05-T01-ONCA-FGBVG", "LALKT-TD-MT35-T01-ONCA-SWAGT", "ANGTH-TD-MT44-T01-ONCA-ANGVG", "KRISK-TD-MT91-T01-ONCA-KRIVG"]),
  ("STASH-TD-TS11-W05-ONCA-VEG08", ["LALKT-TD-MT31-T01-ONCA-SWAGT", "FIERY-TD-MT01-T01-ONCA-FGBVG", "WAKHR-TD-MT01-T01-ONCA-WCBVG", "INFLV-TD-MT94-T01-ONCA-INFVG", "FEAST-TD-MT01-T01-ONCA-SPFVG"]),
  ("STASH-TD-TS12-W05-ONCA-VEG08", ["LALKT-TD-MT30-T01-ONCA-SWAGT", "FIERY-TD-MT02-T01-ONCA-FGBVG", "WAKHR-TD-MT02-T01-ONCA-WCBVG", "INFLV-TD-MT95-T01-ONCA-INFVG", "FEAST-TD-MT02-T01-ONCA-SPFVG"]),
  ("STASH-TD-TS13-W05-ONCA-VEG08", ["LALKT-TD-MT35-T01-ONCA-SWAGT", "FIERY-TD-MT05-T01-ONCA-FGBVG", "WAKHR-TD-MT03-T01-ONCA-WCBVG", "INFLV-TD-MT93-T01-ONCA-INFVG", "FEAST-TD-MT05-T01-ONCA-SPFVG"]),
  ("STASH-TD-TS14-W05-ONCA-VEG12", ["LALKT-TD-MT01-T01-ONCA-LEELA", "FIERY-TD-MT06-T01-ONCA-FGPVG", "WAKHR-TD-MT08-T01-ONCA-WCPVG", "INFLV-TD-MT96-T01-ONCA-INFVG", "FEAST-TD-MT08-T01-ONCA-SPFVG"]),
  ("STASH-TD-TS15-W05-ONCA-VEG12", ["LALKT-TD-MT03-T01-ONCA-LEELA", "FIERY-TD-MT09-T01-ONCA-FGPVG", "WAKHR-TD-MT04-T01-ONCA-KTDVG", "INFLV-TD-MT91-T01-ONCA-INFVG", "FEAST-TD-MT11-T01-ONCA-SPFVG"]),
  ("STASH-TD-TS16-W05-ONCA-VEG12", ["LALKT-TD-MT04-T01-ONCA-LEELA", "FIERY-TD-MT12-T01-ONCA-FGPVG", "WAKHR-TD-MT11-T01-ONCA-WCPVG", "INFLV-TD-MT92-T01-ONCA-INFVG", "FEAST-TD-MT14-T01-ONCA-SPFVG"])]

/-- The body of the `while len(days) < num_days` loop of
`get_next_business_days`, with an explicit fuel bound on iterations (the
Python loop performs at most `num + 2⌈num/5⌉ + 2` iterations, so the fuel
supplied by `get_next_business_days` is never exhausted). -/
def business_days_loop : Nat → Nat → Int → List Int → List Int
  | 0, _, _, days => days
  | fuel + 1, num, curr, days =>
    if days.length < num then
      business_days_loop fuel num (curr + 1)
        (if isBusinessDay curr then days ++ [curr] else days)
    else days

/-- `get_next_business_days(start_date, num_days)`: the first `num` weekdays
counted forward from, and including, `start`. -/
def get_next_business_days (start : Int) (num : Nat) : List Int :=
  business_days_loop (7 * num + 7) num start []

/-- An export row, reduced to the fields `expand_subscriptions` reads or
writes; `rest` carries all remaining columns, copied verbatim by
`row.copy()`. -/
structure ExportRow where
  sku : String
  startDate : String
  rest : List (String × String)
deriving Repr, DecidableEq

/-- The per-row body of `expand_subscriptions`: a row whose SKU is a bundle
key and whose START DATE parses is replaced by one copy per mapped SKU, the
`i`-th copy dated to the `i`-th next business day (`enumerate` with a break
at `len(business_days)` is `List.zipWith`); all other rows pass through. -/
def expand_subscriptions_row (row : ExportRow) : List ExportRow :=
  match List.lookup row.sku sku_map with
  | none => [row]
  | some mapped =>
    match parseDate row.startDate with
    | none => [row]
    | some start =>
      let business_days := get_next_business_days start 5
      List.zipWith
        (fun new_sku d => { row with sku := new_sku, startDate := formatDate d })
        mapped business_days

/-- `expand_subscriptions` over a whole frame: concatenate the per-row
expansions in order. -/
def expand_subscriptions (df : List ExportRow) : List ExportRow :=
  df.flatMap expand_subscriptions_row

/-- Number of business days in the half-open range `[start, start + n)`. -/
def bdaysBefore (start : Int) (n : Nat) : Nat :=
  ((List.range n).filter (fun j => isBusinessDay (start + j))).length

/-- `d` is the `i`-th business day counted forward from, and including,
`start`: it lies at or after `start`, is itself a Monday-Friday weekday, and
exactly `i` business days precede it in `[start, d)`. -/
def IsNthBusinessDayFrom (start d : Int) (i : Nat) : Prop :=
  start ≤ d ∧ isBusinessDay d = true ∧ bdaysBefore start (d - start).toNat = i

instance (start d : Int) (i : Nat) : Decidable (IsNthBusinessDayFrom start d i) := by
  unfold IsNthBusinessDayFrom; infer_instance

/-! ## Business-day enumeration lemmas -/

lemma isBusinessDay_shift (z k : Int) : isBusinessDay (z + 7 * k) = isBusinessDay z := by
  unfold isBusinessDay pyWeekday
  have h : (z + 7 * k + 3) % 7 = (z + 3) % 7 := by omega
  rw [h]

lemma business_days_loop_shift (fuel num : Nat) (k : Int) :
    ∀ (curr : Int) (days : List Int),
    business_days_loop fuel num (curr + 7 * k) (days.map (· + 7 * k)) =
      (business_days_loop fuel num curr days).map (· + 7 * k) := by
  induction fuel with
  | zero => intro curr days; rfl
  | succ n ih =>
    intro curr days
    simp only [business_days_loop, List.length_map]
    by_cases h : days.length < num
    · simp only [h, if_true, isBusinessDay_shift]
      by_cases hb : isBusinessDay curr
      · simpa [hb, show curr + 7 * k + 1 = (curr + 1) + 7 * k by ring] using
          ih (curr + 1) (days ++ [curr])
      · simpa [hb, show curr + 7 * k + 1 = (curr + 1) + 7 * k by ring] using
          ih (curr + 1) days
    · simp [h]

lemma get_next_business_days_shift (start k : Int) (num : Nat) :
    get_next_business_days (start + 7 * k) num =
      (get_next_business_days start num).map (· + 7 * k) := by
  unfold get_next_business_days
  simpa using business_days_loop_shift (7 * num + 7) num k start []

lemma nth_residue : ∀ r : Int, 0 ≤ r → r < 7 →
    (get_next_business_days r 5).length = 5 ∧
    (∀ i, i < 5 → ∀ d, (get_next_business_days r 5)[i]? = some d →
      IsNthBusinessDayFrom r d i) := by
  intro r h0 h7
  interval_cases r <;> exact ⟨by decide, by decide⟩

lemma IsNth_shift (s d k : Int) (i : Nat) (h : IsNthBusinessDayFrom s d i) :
    IsNthBusinessDayFrom (s + 7 * k) (d + 7 * k) i := by
  obtain ⟨h1, h2, h3⟩ := h
  refine ⟨by omega, by rw [isBusinessDay_shift]; exact h2, ?_⟩
  have he : (d + 7 * k - (s + 7 * k)) = d - s := by ring
  rw [he]
  unfold bdaysBefore at h3 ⊢
  rw [← h3]
  congr 1
  apply List.filter_congr
  intro x _
  have he2 : s + 7 * k + x = (s + x) + 7 * k := by ring
  rw [he2, isBusinessDay_shift]

lemma get_next_business_days_length (start : Int) :
    (get_next_business_days start 5).length = 5 := by
  have hdecomp : start = start % 7 + 7 * (start / 7) := by omega
  rw [hdecomp, get_next_business_days_shift, List.length_map]
  exact (nth_residue (start % 7) (by omega) (by omega)).1

lemma get_next_business_days_nth (start : Int) (i : Nat) (hi : i < 5) (d : Int)
    (hd : (get_next_business_days start 5)[i]? = some d) :
    IsNthBusinessDayFrom start d i := by
  have hdecomp : start = start % 7 + 7 * (start / 7) := by omega
  rw [hdecomp, get_next_business_days_shift] at hd
  rw [List.getElem?_map] at hd
  obtain ⟨d0, hd0, rfl⟩ : ∃ d0, (get_next_business_days (start % 7) 5)[i]? = some d0 ∧
      d0 + 7 * (start / 7) = d := by
    cases h : (get_next_business_days (start % 7) 5)[i]? with
    | none => rw [h] at hd; simp at hd
    | some x => rw [h] at hd; simp at hd; exact ⟨x, rfl, hd⟩
  have hn := (nth_residue (start % 7) (by omega) (by omega)).2 i hi d0 hd0
  have h2 := IsNth_shift _ _ (start / 7) i hn
  rwa [← hdecomp] at h2

lemma get_next_business_days_monday (start : Int) (h : pyWeekday start = 0) :
    get_next_business_days start 5 = [start, start + 1, start + 2, start + 3, start + 4] := by
  have hmod : start % 7 = 4 := by unfold pyWeekday at h; omega
  have hdecomp : start = 4 + 7 * (start / 7) := by omega
  rw [hdecomp, get_next_business_days_shift]
  have hc : get_next_business_days 4 5 = [4, 5, 6, 7, 8] := by decide
  rw [hc]
  simp [List.map]
  omega

/-- C1: a row whose SKU is a bundle key and whose START DATE parses expands
to exactly `min 5 mapped.length` rows; row `i` carries SKU `mapped[i]` and a
START DATE that is the `i`-th business day (Monday-Friday only) counted
forward from and including the original start; in particular the bundle
`STASH-TD-TS01-W05-ONCA-VEG08` started on a Monday yields the five listed
SKUs dated Monday through Friday. -/
theorem C1_expander (row : ExportRow) (mapped : List String) (start : Int)
    (hmap : List.lookup row.sku sku_map = some mapped)
    (hstart : parseDate row.startDate = some start) :
    (expand_subscriptions_row row).length = min 5 mapped.length
    ∧ (∀ i r, (expand_subscriptions_row row)[i]? = some r →
        mapped[i]? = some r.sku
        ∧ ∃ d, IsNthBusinessDayFrom start d i ∧ r.startDate = formatDate d)
    ∧ (row.sku = "STASH-TD-TS01-W05-ONCA-VEG08" → pyWeekday start = 0 →
        (expand_subscriptions_row row).map (fun r => r.sku) =
          ["TPROS-TD-MT91-T01-ONCA-TPROS", "FIERY-TD-MT01-T01-ONCA-FGBVG",
           "LALKT-TD-MT31-T01-ONCA-SWAGT", "ANGTH-TD-MT40-T01-ONCA-ANGVG",
           "KRISK-TD-MT01-T01-ONCA-KRIVG"]
        ∧ (expand_subscriptions_row row).map (fun r => r.startDate) =
          [formatDate start, formatDate (start + 1), formatDate (start + 2),
           formatDate (start + 3), formatDate (start + 4)]) := by
  have hout : expand_subscriptions_row row =
      List.zipWith (fun new_sku d => { row with sku := new_sku, startDate := formatDate d })
        mapped (get_next_business_days start 5) := by
    unfold expand_subscriptions_row
    rw [hmap, hstart]
  refine ⟨?_, ?_, ?_⟩
  · rw [hout, List.length_zipWith, get_next_business_days_length, Nat.min_comm]
  · intro i r hr
    rw [hout] at hr
    have hlen : i < (List.zipWith
        (fun new_sku d => { row with sku := new_sku, startDate := formatDate d })
        mapped (get_next_business_days start 5)).length := by
      by_contra hcon
      rw [List.getElem?_eq_none (by omega)] at hr
      exact Option.noConfusion hr
    have hi5 : i < 5 := by
      have hx := hlen
      rw [List.length_zipWith, get_next_business_days_length] at hx; omega
    have him : i < mapped.length := by
      have hx := hlen; rw [List.length_zipWith] at hx; omega
    have hib : i < (get_next_business_days start 5).length := by
      rw [get_next_business_days_length]; exact hi5
    rw [List.getElem?_eq_getElem hlen] at hr
    rw [List.getElem_zipWith] at hr
    injection hr with hr
    subst hr
    refine ⟨by rw [List.getElem?_eq_getElem him], ?_⟩
    exact ⟨(get_next_business_days start 5)[i],
      get_next_business_days_nth start i hi5 _ (List.getElem?_eq_getElem hib), rfl⟩
  · intro hsku hmon
    have hmapped : mapped = ["TPROS-TD-MT91-T01-ONCA-TPROS", "FIERY-TD-MT01-T01-ONCA-FGBVG",
        "LALKT-TD-MT31-T01-ONCA-SWAGT", "ANGTH-TD-MT40-T01-ONCA-ANGVG",
        "KRISK-TD-MT01-T01-ONCA-KRIVG"] := by
      rw [hsku] at hmap
      have hl : List.lookup "STASH-TD-TS01-W05-ONCA-VEG08" sku_map =
          some ["TPROS-TD-MT91-T01-ONCA-TPROS", "FIERY-TD-MT01-T01-ONCA-FGBVG",
            "LALKT-TD-MT31-T01-ONCA-SWAGT", "ANGTH-TD-MT40-T01-ONCA-ANGVG",
            "KRISK-TD-MT01-T01-ONCA-KRIVG"] := by decide
      rw [hl] at hmap
      exact (Option.some.inj hmap).symm
    rw [hout, hmapped, get_next_business_days_monday start hmon]
    constructor <;> simp [List.zipWith]

/-- Witness for C1: the expander applied to the concrete bundle row
`(STASH-TD-TS01-W05-ONCA-VEG08, 2026-02-02)`; 2026-02-02 is day 20486, a
Monday. -/
theorem C1_expander_witness :
    (expand_subscriptions_row ⟨"STASH-TD-TS01-W05-ONCA-VEG08", "2026-02-02", []⟩).length =
      min 5 (["TPROS-TD-MT91-T01-ONCA-TPROS", "FIERY-TD-MT01-T01-ONCA-FGBVG",
        "LALKT-TD-MT31-T01-ONCA-SWAGT", "ANGTH-TD-MT40-T01-ONCA-ANGVG",
        "KRISK-TD-MT01-T01-ONCA-KRIVG"] : List String).length
    ∧ (∀ i r,
        (expand_subscriptions_row ⟨"STASH-TD-TS01-W05-ONCA-VEG08", "2026-02-02", []⟩)[i]? = some r →
        (["TPROS-TD-MT91-T01-ONCA-TPROS", "FIERY-TD-MT01-T01-ONCA-FGBVG",
          "LALKT-TD-MT31-T01-ONCA-SWAGT", "ANGTH-TD-MT40-T01-ONCA-ANGVG",
          "KRISK-TD-MT01-T01-ONCA-KRIVG"] : List String)[i]? = some r.sku
        ∧ ∃ d, IsNthBusinessDayFrom 20486 d i ∧ r.startDate = formatDate d)
    ∧ ((⟨"STASH-TD-TS01-W05-ONCA-VEG08", "2026-02-02", []⟩ : ExportRow).sku =
          "STASH-TD-TS01-W05-ONCA-VEG08" →
        pyWeekday 20486 = 0 →
        (expand_subscriptions_row
            ⟨"STASH-TD-TS01-W05-ONCA-VEG08", "2026-02-02", []⟩).map (fun r => r.sku) =
          ["TPROS-TD-MT91-T01-ONCA-TPROS", "FIERY-TD-MT01-T01-ONCA-FGBVG",
           "LALKT-TD-MT31-T01-ONCA-SWAGT", "ANGTH-TD-MT40-T01-ONCA-ANGVG",
           "KRISK-TD-MT01-T01-ONCA-KRIVG"]
        ∧ (expand_subscriptions_row
            ⟨"STASH-TD-TS01-W05-ONCA-VEG08", "2026-02-02", []⟩).map (fun r => r.startDate) =
          [formatDate 20486, formatDate (20486 + 1), formatDate (20486 + 2),
           formatDate (20486 + 3), formatDate (20486 + 4)]) :=
  C1_expander ⟨"STASH-TD-TS01-W05-ONCA-VEG08", "2026-02-02", []⟩ _ 20486 (by decide) (by decide)

/-! ## EnrichmentJoiner duration and DeliveryCalendar
(`src/src/processing/master_transformations.py`) -/

/-- A master row, reduced to the fields `calculate_end_date_row` and
`calculate_status_row` read: START DATE, END DATE, DAYS, SKIP1..SKIP20
(`skips`), DELSAT and DELSUN.  DataFrame cells are stringly typed here: the
value recorded is what `str(...)` of the cell yields. -/
structure MasterRow where
  startDate : String
  endDate : String
  days : String
  skips : List String
  delsat : String
  delsun : String
deriving Repr, DecidableEq

/-- The `x_mapping` duration table of `vlookup_sku`. -/
def x_mapping : List (String × Nat) :=
  [("Trial", 1), ("Weekly", 5), ("Monthly", 20), ("Weekly (4 Days)", 4),
   ("Monthly (16 Days)", 16), ("Weekly (3 Days)", 3), ("Monthly (12 Days)", 12)]

/-- `calc_days`: strip the MEAL PLAN value and map it through `x_mapping`;
unrecognised plans yield the empty cell (`""`). The integer result is
recorded as the string the cell prints as. -/
def calc_days (plan : String) : String :=
  match List.lookup (pyStrip plan) x_mapping with
  | some n => toString n
  | none => ""

/-- `int(float(days_val)) if days_val else 1`, where `none` means the float
conversion raised (sending `calculate_end_date_row` into its `except`
branch). The DAYS cells this pipeline produces are the `x_mapping` integers
or `""`. -/
def numDaysOf (days_val : String) : Option Int :=
  if days_val = "" then some 1
  else match digitsVal? days_val.data with
       | some n => some (Int.ofNat n)
       | none => none

/-- The placeholder values a SKIP cell may hold without denoting a date. -/
def skipBlacklist : List String := ["0", "0.0", "nan", "None", "-"]

/-- Collect the parseable holiday dates from the SKIP1..SKIP20 cells
(`calculate_end_date_row` lines: strip, drop blacklisted/empty cells, keep
the dates `pd.to_datetime` accepts, silently dropping the rest). -/
def collectHolidays (skips : List String) : List Int :=
  skips.filterMap (fun h =>
    let hv := pyStrip h
    if hv ≠ "" ∧ ¬ hv ∈ skipBlacklist then parseDate hv else none)

/-- Valid delivery day of `CustomBusinessDay(holidays, weekmask)` with the
weekmask `[1,1,1,1,1,sat,sun]` built by `calculate_end_date_row`:
Monday-Friday always, Saturday/Sunday only if the corresponding flag is set,
and never an explicit holiday. -/
def validDeliveryDay (holidays : List Int) (sat sun : Bool) (z : Int) : Bool :=
  (pyWeekday z < 5 || (pyWeekday z = 5 && sat) || (pyWeekday z = 6 && sun))
    && !(holidays.contains z)

/-- The next valid delivery day strictly after `z` (fuel-bounded search; the
fuel passed by `addBusinessDays` always suffices, because any stretch of
`7*(k+2)` consecutive days contains `5*(k+2) > k` Monday-Friday weekdays and
only `k` of them can be holidays). -/
def nextValidDay (holidays : List Int) (sat sun : Bool) : Nat → Int → Int
  | 0, z => z + 1
  | fuel + 1, z =>
    if validDeliveryDay holidays sat sun (z + 1) then z + 1
    else nextValidDay holidays sat sun fuel (z + 1)

/-- `start + n * CustomBusinessDay(holidays, weekmask)` for `n ≥ 0`: step
`n` times from `start` to the next valid delivery day. -/
def addBusinessDays (holidays : List Int) (sat sun : Bool) (start : Int) : Nat → Int
  | 0 => start
  | n + 1 =>
    addBusinessDays holidays sat sun
      (nextValidDay holidays sat sun (7 * (holidays.length + 2)) start) n

/-- The row body of `fill_end_date` (`calculate_end_date_row`). -/
def calculate_end_date_row (row : MasterRow) : String :=
  let start_val := pyStrip row.startDate
  let days_val := row.days
  if start_val = "P" then "PAUSE"
  else if start_val = "-" ∨ start_val = "" ∨ start_val = "0" then "-"
  else
    match parseDate start_val with
    | none => start_val
    | some start_dt =>
      let holidays := collectHolidays row.skips
      let sat_delivery := pyLower (pyStrip row.delsat) = "yes"
      let sun_delivery := pyLower (pyStrip row.delsun) = "yes"
      match numDaysOf days_val with
      | none => formatDate start_dt
      | some num_days =>
        if num_days > 1 then
          formatDate
            (addBusinessDays holidays sat_delivery sun_delivery start_dt (num_days - 1).toNat)
        else formatDate start_dt

/-! ## StatusResolver (`fill_status`) -/

/-- The row body of `fill_status` (`calculate_status_row`): `today` is
`pd.Timestamp.now().normalize()`, passed explicitly. -/
def calculate_status_row (today : Int) (startDate endDate : String) : String :=
  let start_val := pyStrip startDate
  let end_val := pyStrip endDate
  if start_val = "P" ∨ end_val = "PAUSE" then "PAUSE"
  else if start_val = "-" ∨ end_val = "-" then "CANCELLED"
  else
    match parseDate start_val, parseDate end_val with
    | some start_dt, some end_dt =>
      if today = end_dt then "LAST DAY"
      else if start_dt ≤ today ∧ today ≤ end_dt then "WIP"
      else if today < start_dt then "TBS"
      else "DELIVERED"
    | _, _ => "ERROR"

/-- The status resolver as the specification sentence words it: paused
sentinel first, then cancelled sentinel, then parse failure, then the four
date comparisons in the stated priority, with `DELIVERED` guarded by the
stated condition `today > END DATE`.  The final `"IMPOSSIBLE"` branch is a
syntactic leftover: the refinement theorem proves it is never reached. -/
def statusResolverSpec (today : Int) (startDate endDate : String) : String :=
  let st := pyStrip startDate
  let en := pyStrip endDate
  if st = "P" ∨ en = "PAUSE" then "PAUSE"
  else if st = "-" ∨ en = "-" then "CANCELLED"
  else
    match parseDate st, parseDate en with
    | some s, some e =>
      if today = e then "LAST DAY"
      else if s ≤ today ∧ today ≤ e then "WIP"
      else if today < s then "TBS"
      else if e < today then "DELIVERED"
      else "IMPOSSIBLE"
    | _, _ => "ERROR"

/-- C2: meal plan `"Weekly (3 Days)"` derives duration 3; with START DATE
2026-02-02 (a Monday), weekend delivery disabled and no skip exceptions the
END DATE is 2026-02-04, and with the single skip exception 2026-02-03 it is
2026-02-05. -/
theorem C2_duration_end_date :
    calc_days "Weekly (3 Days)" = "3"
    ∧ calculate_end_date_row
        { startDate := "2026-02-02", endDate := "0", days := calc_days "Weekly (3 Days)",
          skips := List.replicate 20 "0", delsat := "-", delsun := "-" } = "2026-02-04"
    ∧ calculate_end_date_row
        { startDate := "2026-02-02", endDate := "0", days := calc_days "Weekly (3 Days)",
          skips := "2026-02-03" :: List.replicate 19 "0", delsat := "-", delsun := "-" } =
        "2026-02-05" :=
  ⟨by decide, by decide, by decide⟩

/-- C3: the status resolver evaluates its cases in exactly the fixed
priority the specification states — paused sentinel, cancelled sentinel,
parse failure, then `LAST DAY` / `WIP` / `TBS` / `DELIVERED` on normalized
dates — shown by proving it equal to `statusResolverSpec`, the
transcription of the specification sentence (whose dead `"IMPOSSIBLE"`
branch is thereby proved unreachable, i.e. `DELIVERED` is exactly the
`today > END DATE` residual case). -/
theorem C3_status_resolver (today : Int) (startDate endDate : String) :
    calculate_status_row today startDate endDate = statusResolverSpec today startDate endDate := by
  unfold calculate_status_row statusResolverSpec
  by_cases hp : pyStrip startDate = "P" ∨ pyStrip endDate = "PAUSE"
  · simp [hp]
  · simp only [hp, if_false]
    by_cases hc : pyStrip startDate = "-" ∨ pyStrip endDate = "-"
    · simp [hc]
    · simp only [hc, if_false]
      cases hs : parseDate (pyStrip startDate) with
      | none => cases he : parseDate (pyStrip endDate) <;> rfl
      | some s =>
        cases he : parseDate (pyStrip endDate) with
        | none => rfl
        | some e =>
          by_cases h1 : today = e
          · simp [h1]
          · simp only [h1, if_false]
            by_cases h2 : s ≤ today ∧ today ≤ e
            · simp [h2]
            · simp only [h2, if_false]
              by_cases h3 : today < s
              · simp [h3]
              · have h4 : e < today := by omega
                simp [h3, h4]

/-- C4 counterexample: for the non-empty unparseable START DATE `" x"` the
computed END DATE is the *stripped* value `"x"`, not the original raw value
`" x"` the claim promises (the code strips before every comparison and
returns the stripped string). -/
theorem C4_counterexample :
    calculate_end_date_row
      { startDate := " x", endDate := "0", days := "", skips := List.replicate 20 "0",
        delsat := "-", delsun := "-" } = "x"
    ∧ "x" ≠ " x" :=
  ⟨by decide, by decide⟩

/-- C4 (amended): on the whitespace-stripped START DATE, the edge cases are
handled in priority order: stripped value `P` gives `PAUSE` with no
arithmetic; else stripped value empty, `-` or `0` gives the not-scheduled
sentinel `-`; else a non-empty unparseable stripped value is passed through
(as the stripped value). -/
theorem C4_amended (row : MasterRow) :
    (pyStrip row.startDate = "P" → calculate_end_date_row row = "PAUSE")
    ∧ (pyStrip row.startDate ≠ "P" →
        pyStrip row.startDate = "-" ∨ pyStrip row.startDate = "" ∨ pyStrip row.startDate = "0" →
        calculate_end_date_row row = "-")
    ∧ (pyStrip row.startDate ≠ "P" → pyStrip row.startDate ≠ "-" →
        pyStrip row.startDate ≠ "" → pyStrip row.startDate ≠ "0" →
        parseDate (pyStrip row.startDate) = none →
        calculate_end_date_row row = pyStrip row.startDate) := by
  unfold calculate_end_date_row
  refine ⟨fun h1 => ?_, fun h1 h2 => ?_, fun h1 h2 h3 h4 h5 => ?_⟩
  · simp [h1]
  · rw [if_neg (by simp [h1]), if_pos h2]
  · have hd : ¬(pyStrip row.startDate = "-" ∨ pyStrip row.startDate = "" ∨
        pyStrip row.startDate = "0") := by tauto
    rw [if_neg h1, if_neg hd, h5]

/-- Witness for the amended C4, at the three concrete rows with START DATE
`"P"`, `""` and `" x"` respectively. -/
theorem C4_amended_witness :
    calculate_end_date_row
      { startDate := "P", endDate := "0", days := "", skips := List.replicate 20 "0",
        delsat := "-", delsun := "-" } = "PAUSE"
    ∧ calculate_end_date_row
      { startDate := "", endDate := "0", days := "", skips := List.replicate 20 "0",
        delsat := "-", delsun := "-" } = "-"
    ∧ calculate_end_date_row
      { startDate := " x", endDate := "0", days := "", skips := List.replicate 20 "0",
        delsat := "-", delsun := "-" } = pyStrip " x" :=
  ⟨(C4_amended _).1 (by decide),
   (C4_amended _).2.1 (by decide) (by decide),
   (C4_amended _).2.2 (by decide) (by decide) (by decide) (by decide) (by decide)⟩

/-! ## Durable store model

A stored row is an association list from column name to cell value, with
`none` for SQL NULL; a column absent from the list also reads as NULL.
`SELECT ... fetchone()` is `List.find?` (the first matching row), `INSERT`
appends, and `UPDATE ... WHERE` maps the assignment over every matching
row.  Incoming JSON rows have the same shape (`none` = JSON null). -/

/-- A stored database row. -/
abbrev DbRow := List (String × Option String)

/-- An incoming upload row (after the endpoint's column filtering and DATE
normalisation, which are deterministic per-row preprocessing). -/
abbrev InRow := List (String × Option String)

/-- Read a column (`row._mapping` access / `dict.get(k)`): absent = NULL. -/
def dbGet (r : DbRow) (k : String) : Option String :=
  match List.lookup k r with
  | some v => v
  | none => none

/-- `dict.get(k, "")`. -/
def inGetD (row : InRow) (k : String) : Option String :=
  match List.lookup k row with
  | some v => v
  | none => some ""

/-- SQL `UPDATE ... SET`: the assignments override the row's columns, all
other columns are kept. -/
def dbSet (r : DbRow) (kvs : List (String × Option String)) : DbRow :=
  kvs ++ r.filter (fun kv => !((kvs.map Prod.fst).contains kv.1))

/-- Python `str(...)` of a cell value (`str(None)` is the string `None`). -/
def pyStr : Option String → String
  | none => "None"
  | some s => s

/-- `None if v == "" else v`: the conversion applied to every incoming cell
when the bind-parameter dictionary is built. -/
def toParam : Option String → Option String
  | some "" => none
  | v => v

/-- `str(v) if v is not None else ""`: the stringly reading used by the
duplicate check, which identifies `None` and the empty string. -/
def optStr : Option String → String
  | none => ""
  | some s => s

/-- SQL equality `col = :param`: NULL on either side never matches. -/
def sqlEq (v dbv : Option String) : Bool :=
  match v with
  | none => false
  | some s => dbv = some s

/-- The tally returned by a batch upload. -/
structure UploadTally where
  inserted : Nat
  updated : Nat
  skipped : Nat
  errors : Nat
deriving Repr, DecidableEq

/-- The all-zero tally a batch starts from. -/
def emptyTally : UploadTally := ⟨0, 0, 0, 0⟩

/-! ## Batch upload, newer endpoint
(`upload_master_data`, `src/backend/src/routers/master_data.py`) -/

/-- `str(valid_row.get("ORDER ID", "")).strip()`. -/
def rowOid (row : InRow) : String := pyStrip (pyStr (inGetD row "ORDER ID"))

/-- `str(valid_row.get("SKU", "")).strip()`, with `"None"` and `""`
normalised to SQL NULL. -/
def rowSku (row : InRow) : Option String :=
  let s := pyStrip (pyStr (inGetD row "SKU"))
  if s = "None" ∨ s = "" then none else some s

/-- The bind-parameter dictionary: every incoming cell with `""` mapped to
NULL. -/
def rowParams (row : InRow) : List (String × Option String) :=
  row.map (fun kv => (kv.1, toParam kv.2))

/-- `WHERE "ORDER ID" = :oid AND ("SKU" = :sku | "SKU" IS NULL)`. -/
def matchesKey (oid : String) (sku : Option String) (r : DbRow) : Bool :=
  dbGet r "ORDER ID" = some oid &&
    match sku with
    | some s => dbGet r "SKU" = some s
    | none => dbGet r "SKU" = none

/-- `SELECT * ... fetchone()` by the composite key. -/
def findByKey (store : List DbRow) (oid : String) (sku : Option String) : Option DbRow :=
  store.find? (matchesKey oid sku)

/-- The exact-duplicate check: every non-key column of the incoming row
equals the stored cell when both are read as strings with `None`/`""`
identified. -/
def isDuplicate (params : List (String × Option String)) (ex : DbRow) : Bool :=
  params.all (fun kv =>
    kv.1 == "ORDER ID" || kv.1 == "SKU" || optStr kv.2 == optStr (dbGet ex kv.1))

/-- The non-key assignments of the UPDATE's SET list. -/
def nonKeyParams (params : List (String × Option String)) : List (String × Option String) :=
  params.filter (fun kv => !(kv.1 == "ORDER ID" || kv.1 == "SKU"))

/-- One iteration of the upload loop of the newer `upload_master_data`.
`fail` abstracts a database exception raised inside the row's `try` block
(whose handler counts the row as an error and moves on).  Note the UPDATE
branch: its SQL binds `:oid`/`:sku`, but it is executed with the
column-keyed parameter dictionary, which contains neither, so the driver
raises a missing-bind-parameter error before reaching the database — the
branch therefore always lands in the error handler and never changes the
store (when its SET list is empty no statement is issued at all and nothing
is counted). -/
def upload_row_step (fail : Bool) (st : List DbRow × UploadTally) (row : InRow) :
    List DbRow × UploadTally :=
  let store := st.1
  let t := st.2
  if row.isEmpty then (store, t)
  else
    let oid := rowOid row
    if oid = "" then (store, t)
    else if fail then (store, { t with errors := t.errors + 1 })
    else
      let params := rowParams row
      let sku := rowSku row
      match findByKey store oid sku with
      | some ex =>
        if isDuplicate params ex then (store, { t with skipped := t.skipped + 1 })
        else if (nonKeyParams params).isEmpty then (store, t)
        else (store, { t with errors := t.errors + 1 })
      | none => (store ++ [params], { t with inserted := t.inserted + 1 })

/-- The newer batch upload endpoint: fold the per-row step over the batch
(the transaction is committed once at the end; the returned store is the
committed state). -/
def upload_master_data (store : List DbRow) (rows : List InRow) (f : InRow → Bool) :
    List DbRow × UploadTally :=
  rows.foldl (fun st row => upload_row_step (f row) st row) (store, emptyTally)

/-- The JSON body returned by the newer endpoint. -/
def upload_master_data_response (t : UploadTally) : List (String × String) :=
  [("status", "success"), ("inserted", toString t.inserted),
   ("updated", toString t.updated), ("skipped", toString t.skipped),
   ("errors", toString t.errors)]

/-! ## Batch upload, older endpoint
(`upload_master_data`, `src/backend/app/main.py`) -/

/-- `dict.get(k)`: absent key = Python `None`. -/
def inGet (row : InRow) (k : String) : Option String :=
  match List.lookup k row with
  | some v => v
  | none => none

/-- One iteration of the upload loop of the older `upload_master_data`
endpoint: no trimming or `"None"` normalisation of the key; a missing/null
SKU makes both the lookup and the UPDATE match by ORDER ID alone; each row
is committed individually (a failed row is rolled back, leaving previously
committed rows in place); duplicate rows are skipped by a bare `continue`
without being counted. -/
def upload_row_step_main (fail : Bool) (st : List DbRow × UploadTally) (row : InRow) :
    List DbRow × UploadTally :=
  let store := st.1
  let t := st.2
  if row.isEmpty then (store, t)
  else
    match inGet row "ORDER ID" with
    | none => (store, t)
    | some oid =>
      if oid = "" then (store, t)
      else if fail then (store, { t with errors := t.errors + 1 })
      else
        let params := rowParams row
        let sku_val := inGet row "SKU"
        let found :=
          match sku_val with
          | some s =>
            store.find? (fun r => dbGet r "ORDER ID" = some oid && dbGet r "SKU" = some s)
          | none => store.find? (fun r => dbGet r "ORDER ID" = some oid)
        match found with
        | some ex =>
          if isDuplicate params ex then (store, t)
          else if (nonKeyParams params).isEmpty then (store, t)
          else
            (store.map (fun r =>
              if sqlEq (some oid) (dbGet r "ORDER ID") &&
                  (match sku_val with
                   | some _ => sqlEq (toParam sku_val) (dbGet r "SKU")
                   | none => true) then
                dbSet r (nonKeyParams params)
              else r),
             { t with updated := t.updated + 1 })
        | none => (store ++ [params], { t with inserted := t.inserted + 1 })

/-- The older batch upload endpoint. -/
def upload_master_data_main (store : List DbRow) (rows : List InRow) (f : InRow → Bool) :
    List DbRow × UploadTally :=
  rows.foldl (fun st row => upload_row_step_main (f row) st row) (store, emptyTally)

/-- The JSON body returned by the older endpoint: no `skipped` entry. -/
def upload_master_data_main_response (t : UploadTally) : List (String × String) :=
  [("status", "success"), ("inserted", toString t.inserted),
   ("updated", toString t.updated), ("errors", toString t.errors)]

/-! ## Conditional single-row update
(`update_master_row`, `src/backend/src/routers/master_data.py`)

The SET clause binds each updated column `k` as `:val_{k.replace(' ','_')}`
— only spaces are replaced.  The driver parses a bind name as the maximal
run of word characters after the colon, so a column name carrying any other
character (the master schema's `SELLER NOTE (Changed original value)`, with
its parentheses) yields a statement whose parsed bind has no supplied value
and whose stray text corrupts the SQL: execution raises before any row is
compared, the generic handler returns 500, and nothing is modified.  The
WHERE-clause bind names go through `re.sub('[^a-zA-Z0-9_]','_', k.strip())`
and always parse whole.  The embedding keys the row predicate and SET list
by the original column names, which is faithful when the generated bind
names are pairwise distinct (two distinct columns colliding after
sanitisation would share one dictionary slot); the amended C7 theorem
carries that distinctness as an explicit hypothesis. -/

/-- The caller's request: target ORDER ID, the fingerprint of the row as
last observed, and the desired field changes (pydantic `Dict[str, str]`). -/
structure MasterRowUpdate where
  order_id : String
  original_row : List (String × String)
  updates : List (String × String)
deriving Repr, DecidableEq

/-- The outcome of a conditional update: `statementError` is the 500 raised
when a SET bind name does not survive the driver's parsing. -/
inductive UpdateResult
  | noChanges
  | conflict
  | statementError
  | success (updated : Nat)
deriving Repr, DecidableEq

/-- A word character, as in the driver's bind-name lexer and Python's
`\w` / `[^a-zA-Z0-9_]`. -/
def isWordChar (c : Char) : Bool := c.isAlphanum || c = '_'

/-- Python `k.replace(' ', '_')`: the only sanitisation the SET-clause bind
names receive. -/
def spaceToUnderscore (k : String) : String :=
  ⟨k.data.map (fun c => if c = ' ' then '_' else c)⟩

/-- A bind name survives the driver's parsing whole iff it consists only of
word characters. -/
def cleanBindName (s : String) : Bool := s.data.all isWordChar

/-- The WHERE-clause bind name generated for a fingerprint field
(`cond_` + `re.sub` over the stripped column name). -/
def condBindName (k : String) : String :=
  "cond_" ++ ⟨(pyStrip k).data.map (fun c => if isWordChar c then c else '_')⟩

/-- `{k: v for k, v in update.updates.items() if k and k != "ORDER ID"}`. -/
def validUpdates (u : MasterRowUpdate) : List (String × String) :=
  u.updates.filter (fun kv => !(kv.1 == "" || kv.1 == "ORDER ID"))

/-- The WHERE condition generated for one fingerprint field: an
empty-equivalent observed value (`""`, `nan`, `none` case-insensitively)
requires the stored cell to be NULL, empty or the text `nan`; any other
value requires exact equality of the cell text. -/
def fingerprintCond (v : String) (dbv : Option String) : Bool :=
  if pyLower v = "nan" ∨ pyLower v = "none" ∨ pyLower v = "" then
    dbv = none || dbv = some "" || dbv = some "nan"
  else dbv = some v

/-- A stored row satisfies the full fingerprint WHERE clause: ORDER ID
equality plus every original-row field condition (ORDER ID skipped). -/
def updateRowMatches (u : MasterRowUpdate) (r : DbRow) : Bool :=
  dbGet r "ORDER ID" = some u.order_id &&
    u.original_row.all (fun kv => kv.1 == "ORDER ID" || fingerprintCond kv.2 (dbGet r kv.1))

/-- `update_master_row`: when every SET bind name (`val_` + space-replaced
column name) parses whole, apply the SET list to every row matching the
fingerprint and report 409 (`conflict`) when the row count is zero;
otherwise the statement raises at execution — before any row comparison —
and the endpoint returns 500 with the store untouched. -/
def update_master_row (store : List DbRow) (u : MasterRowUpdate) :
    List DbRow × UpdateResult :=
  if (validUpdates u).isEmpty then (store, UpdateResult.noChanges)
  else if (validUpdates u).all (fun kv => cleanBindName ("val_" ++ spaceToUnderscore kv.1)) then
    let matched := store.countP (fun r => updateRowMatches u r)
    let store' := store.map (fun r =>
      if updateRowMatches u r then
        dbSet r ((validUpdates u).map (fun kv => (kv.1, some kv.2)))
      else r)
    if matched = 0 then (store', UpdateResult.conflict)
    else (store', UpdateResult.success matched)
  else (store, UpdateResult.statementError)

/-! ## Skip-date append
(`skip_order`, `src/backend/src/routers/master_data.py`; the older endpoint
in `src/backend/app/main.py` has the same body against the fixed table) -/

/-- The caller's request: order id, optional SKU, and the date to append. -/
structure SkipUpdate where
  order_id : String
  sku : Option String
  skip_date : String
deriving Repr, DecidableEq

/-- The outcome of a skip-date append. -/
inductive SkipResult
  | notFound
  | capacityFull
  | success (column : String)
deriving Repr, DecidableEq

/-- A SKIP cell counts as unused when falsy or a placeholder (`p`, `nan`,
`none`, the empty string, `0` or the hyphen, case-insensitively). -/
def skipSlotUnused (v : Option String) : Bool :=
  match v with
  | none => true
  | some s => s == "" || (["p", "nan", "none", "", "0", "-"].contains (pyLower s))

/-- `WHERE "ORDER ID" = :oid [AND "SKU" = :sku]`. -/
def skipMatches (u : SkipUpdate) (r : DbRow) : Bool :=
  dbGet r "ORDER ID" = some u.order_id &&
    match u.sku with
    | some s => dbGet r "SKU" = some s
    | none => true

/-- The first `i` in 1..20 whose `SKIP{i}` cell of `r` is unused. -/
def firstUnusedSkip (r : DbRow) : Option Nat :=
  (List.range' 1 20).find? (fun i => skipSlotUnused (dbGet r ("SKIP" ++ toString i)))

/-- `skip_order`: fetch the first row matching the key, pick the first
unused SKIP slot *of that row*, and write the date into that slot on every
row matching the key. -/
def skip_order (store : List DbRow) (u : SkipUpdate) : List DbRow × SkipResult :=
  match store.find? (skipMatches u) with
  | none => (store, SkipResult.notFound)
  | some row =>
    match firstUnusedSkip row with
    | none => (store, SkipResult.capacityFull)
    | some i =>
      let col := "SKIP" ++ toString i
      (store.map (fun r => if skipMatches u r then dbSet r [(col, some u.skip_date)] else r),
       SkipResult.success col)

/-! ## Association-list store lemmas -/

lemma lookup_append (k : String) (l1 l2 : List (String × Option String)) :
    List.lookup k (l1 ++ l2) =
      match List.lookup k l1 with
      | some v => some v
      | none => List.lookup k l2 := by
  induction l1 with
  | nil => simp
  | cons kv rest ih =>
    cases kv with
    | mk k1 v1 =>
      by_cases h : k = k1
      · subst h; simp [List.lookup]
      · have hb : (k == k1) = false := beq_eq_false_iff_ne.mpr h
        simp only [List.cons_append, List.lookup, hb]
        exact ih

lemma lookup_keys_not_contains (k : String) (kvs : List (String × Option String))
    (h : List.lookup k kvs = none) : (kvs.map Prod.fst).contains k = false := by
  induction kvs with
  | nil => rfl
  | cons kv rest ih =>
    cases kv with
    | mk k1 v1 =>
      by_cases hk : k = k1
      · subst hk; simp [List.lookup] at h
      · have hb : (k == k1) = false := beq_eq_false_iff_ne.mpr hk
        simp only [List.lookup, hb] at h
        simp only [List.map, List.contains_cons, hb, Bool.false_or]
        exact ih h

lemma lookup_filter_keys (k : String) (r : List (String × Option String)) (keys : List String)
    (h : keys.contains k = false) :
    List.lookup k (r.filter (fun kv => !(keys.contains kv.1))) = List.lookup k r := by
  induction r with
  | nil => rfl
  | cons kv rest ih =>
    cases kv with
    | mk k1 v1 =>
      by_cases hk : k = k1
      · subst hk
        have hmem : k ∉ keys := by simpa using h
        simp [List.filter_cons, hmem, List.lookup]
      · have hb : (k == k1) = false := beq_eq_false_iff_ne.mpr hk
        by_cases h1 : k1 ∈ keys
        all_goals
          simp only [List.contains, List.elem_eq_mem] at ih
          simp [List.filter_cons, h1, List.lookup, hb, ih]

/-- Reading an updated row: assigned columns return their new value, all
others are read from the original row. -/
lemma dbGet_dbSet (r : DbRow) (kvs : List (String × Option String)) (k : String) :
    dbGet (dbSet r kvs) k =
      match List.lookup k kvs with
      | some v => v
      | none => dbGet r k := by
  unfold dbGet dbSet
  rw [lookup_append]
  cases h : List.lookup k kvs with
  | some v => rfl
  | none =>
    rw [lookup_filter_keys k r _ (lookup_keys_not_contains k kvs h)]

/-- `List.find?` over `range'` returns the least index satisfying the
predicate, with its bounds. -/
lemma find?_range'_spec (p : Nat → Bool) :
    ∀ (a n i : Nat), (List.range' a n).find? p = some i →
      p i = true ∧ a ≤ i ∧ i < a + n ∧ ∀ j, a ≤ j → j < i → p j = false := by
  intro a n
  induction n generalizing a with
  | zero => intro i h; simp [List.range'] at h
  | succ m ih =>
    intro i h
    rw [List.range'] at h
    rw [List.find?] at h
    by_cases hp : p a
    · rw [hp] at h
      simp at h
      subst h
      exact ⟨hp, Nat.le_refl _, by omega, fun j hj1 hj2 => by omega⟩
    · rw [Bool.eq_false_iff.mpr hp] at h
      obtain ⟨h1, h2, h3, h4⟩ := ih (a + 1) i h
      refine ⟨h1, by omega, by omega, fun j hj1 hj2 => ?_⟩
      by_cases hja : j = a
      · subst hja; exact Bool.eq_false_iff.mpr hp
      · exact h4 j (by omega) hj2

/-- Counterexample to C7 as stated: an update to the real master-schema
column `SELLER NOTE (Changed original value)` generates the SET bind name
`val_SELLER_NOTE_(Changed_original_value)`, whose parentheses stop the
driver's parsing at `val_SELLER_NOTE_`; the statement raises at execution,
before any row comparison, so even though the stored row matches the
fingerprint exactly, the update is not applied: the endpoint returns the
500 statement-error signal and the store is unchanged, refuting "applied
exactly when the fingerprint matches". -/
theorem C7_counterexample :
    (update_master_row
        [[("ORDER ID", some "1"),
          ("SELLER NOTE (Changed original value)", some "A")]]
        ⟨"1", [("SELLER NOTE (Changed original value)", "A")],
          [("SELLER NOTE (Changed original value)", "B")]⟩).2 =
      UpdateResult.statementError
    ∧ updateRowMatches
        ⟨"1", [("SELLER NOTE (Changed original value)", "A")],
          [("SELLER NOTE (Changed original value)", "B")]⟩
        [("ORDER ID", some "1"),
          ("SELLER NOTE (Changed original value)", some "A")] = true
    ∧ (update_master_row
        [[("ORDER ID", some "1"),
          ("SELLER NOTE (Changed original value)", some "A")]]
        ⟨"1", [("SELLER NOTE (Changed original value)", "A")],
          [("SELLER NOTE (Changed original value)", "B")]⟩).1 =
      [[("ORDER ID", some "1"),
        ("SELLER NOTE (Changed original value)", some "A")]] := by
  decide

/-- C7 (amended): provided every SET bind name — `val_` plus the
space-replaced column name — parses whole (true of every column a caller
can name except `SELLER NOTE (Changed original value)`), and the generated
SET and WHERE bind names are pairwise distinct, a conditional single-row
update is applied exactly to the store rows on which every caller-supplied
fingerprint field still matches the current values (empty-equivalents
matching NULL/empty/nan cells); when no row matches, the operation returns
the 409 conflict signal and the store is left completely unchanged; and in
general the store is rewritten row by row guarded by the fingerprint
predicate, so non-matching rows keep every field. -/
theorem C7_amended (store : List DbRow) (u : MasterRowUpdate)
    (hne : (validUpdates u).isEmpty = false)
    (hclean : (validUpdates u).all
      (fun kv => cleanBindName ("val_" ++ spaceToUnderscore kv.1)) = true)
    (hvaldistinct :
      ((validUpdates u).map (fun kv => spaceToUnderscore kv.1)).Nodup)
    (hconddistinct : ((u.original_row.filter
      (fun kv => !(kv.1 == "ORDER ID"))).map
        (fun kv => condBindName kv.1)).Nodup) :
    ((update_master_row store u).2 = UpdateResult.conflict ↔
      ∀ r ∈ store, updateRowMatches u r = false)
    ∧ ((update_master_row store u).2 = UpdateResult.conflict →
        (update_master_row store u).1 = store)
    ∧ (update_master_row store u).1 = store.map (fun r =>
        if updateRowMatches u r then
          dbSet r ((validUpdates u).map (fun kv => (kv.1, some kv.2)))
        else r) := by
  unfold update_master_row
  simp only [hne, Bool.false_eq_true, if_false]
  rw [if_pos hclean]
  by_cases hm : store.countP (fun r => updateRowMatches u r) = 0
  · have hall : ∀ r ∈ store, updateRowMatches u r = false := by
      intro r hr
      have hx := List.countP_eq_zero.mp hm r hr
      exact Bool.eq_false_iff.mpr hx
    rw [if_pos hm]
    refine ⟨⟨fun _ => hall, fun _ => rfl⟩, fun _ => ?_, rfl⟩
    show store.map _ = store
    have hmap : store.map (fun r =>
        if updateRowMatches u r then
          dbSet r ((validUpdates u).map (fun kv => (kv.1, some kv.2)))
        else r) = store.map id := by
      apply List.map_congr_left
      intro r hr
      rw [hall r hr]
      simp
    rw [hmap, List.map_id]
  · rw [if_neg hm]
    refine ⟨⟨fun hcon => absurd hcon (by simp), fun hall => ?_⟩,
      fun hcon => absurd hcon (by simp), rfl⟩
    exfalso
    apply hm
    apply List.countP_eq_zero.mpr
    intro r hr
    rw [hall r hr]
    simp

/-- Witness for C7 (amended): a store whose single row
`(ORDER ID 1, NAME A)` is updated under a matching fingerprint; `NAME`
sanitises cleanly into its bind names, so every hypothesis is discharged
by computation. -/
theorem C7_amended_witness :
    ((update_master_row [[("ORDER ID", some "1"), ("NAME", some "A")]]
        ⟨"1", [("NAME", "A")], [("NAME", "B")]⟩).2 = UpdateResult.conflict ↔
      ∀ r ∈ [[("ORDER ID", some "1"), ("NAME", some "A")]],
        updateRowMatches ⟨"1", [("NAME", "A")], [("NAME", "B")]⟩ r = false)
    ∧ ((update_master_row [[("ORDER ID", some "1"), ("NAME", some "A")]]
        ⟨"1", [("NAME", "A")], [("NAME", "B")]⟩).2 = UpdateResult.conflict →
        (update_master_row [[("ORDER ID", some "1"), ("NAME", some "A")]]
          ⟨"1", [("NAME", "A")], [("NAME", "B")]⟩).1 =
          [[("ORDER ID", some "1"), ("NAME", some "A")]])
    ∧ (update_master_row [[("ORDER ID", some "1"), ("NAME", some "A")]]
        ⟨"1", [("NAME", "A")], [("NAME", "B")]⟩).1 =
        [[("ORDER ID", some "1"), ("NAME", some "A")]].map (fun r =>
          if updateRowMatches ⟨"1", [("NAME", "A")], [("NAME", "B")]⟩ r then
            dbSet r ((validUpdates ⟨"1", [("NAME", "A")], [("NAME", "B")]⟩).map
              (fun kv => (kv.1, some kv.2)))
          else r) :=
  C7_amended [[("ORDER ID", some "1"), ("NAME", some "A")]]
    ⟨"1", [("NAME", "A")], [("NAME", "B")]⟩
    (by decide) (by decide) (by decide) (by decide)

/-- C8: a skip-date append on a fetched record writes the date into the
first unused of the twenty SKIP slots of that record and reports the slot
used; if all twenty slots are occupied the request is rejected with the
capacity signal and the store is not mutated at all. -/
theorem C8_skip_append (store : List DbRow) (u : SkipUpdate) (row : DbRow)
    (hrow : store.find? (skipMatches u) = some row) :
    (∀ i, firstUnusedSkip row = some i →
      (skip_order store u).2 = SkipResult.success ("SKIP" ++ toString i)
      ∧ 1 ≤ i ∧ i ≤ 20
      ∧ skipSlotUnused (dbGet row ("SKIP" ++ toString i)) = true
      ∧ (∀ j, 1 ≤ j → j < i → skipSlotUnused (dbGet row ("SKIP" ++ toString j)) = false)
      ∧ (skip_order store u).1 = store.map (fun r =>
          if skipMatches u r then dbSet r [("SKIP" ++ toString i, some u.skip_date)] else r)
      ∧ dbGet (dbSet row [("SKIP" ++ toString i, some u.skip_date)]) ("SKIP" ++ toString i) =
          some u.skip_date)
    ∧ (firstUnusedSkip row = none →
        (skip_order store u).2 = SkipResult.capacityFull ∧ (skip_order store u).1 = store) := by
  unfold skip_order
  rw [hrow]
  dsimp only
  constructor
  · intro i hi
    rw [hi]
    dsimp only
    have hspec := find?_range'_spec
      (fun j => skipSlotUnused (dbGet row ("SKIP" ++ toString j))) 1 20 i hi
    obtain ⟨h1, h2, h3, h4⟩ := hspec
    refine ⟨rfl, h2, by omega, h1, fun j hj1 hj2 => h4 j hj1 hj2, rfl, ?_⟩
    rw [dbGet_dbSet]
    simp [List.lookup]
  · intro hi
    rw [hi]
    exact ⟨rfl, rfl⟩

/-- Witness for C8: appending `2026-02-03` to the record
`(ORDER ID 7, SKU S)` whose SKIP1 slot is free lands in SKIP1. -/
theorem C8_skip_append_witness :
    (∀ i, firstUnusedSkip [("ORDER ID", some "7"), ("SKU", some "S")] = some i →
      (skip_order [[("ORDER ID", some "7"), ("SKU", some "S")]]
          ⟨"7", some "S", "2026-02-03"⟩).2 = SkipResult.success ("SKIP" ++ toString i)
      ∧ 1 ≤ i ∧ i ≤ 20
      ∧ skipSlotUnused (dbGet [("ORDER ID", some "7"), ("SKU", some "S")]
          ("SKIP" ++ toString i)) = true
      ∧ (∀ j, 1 ≤ j → j < i →
          skipSlotUnused (dbGet [("ORDER ID", some "7"), ("SKU", some "S")]
            ("SKIP" ++ toString j)) = false)
      ∧ (skip_order [[("ORDER ID", some "7"), ("SKU", some "S")]]
          ⟨"7", some "S", "2026-02-03"⟩).1 =
          [[("ORDER ID", some "7"), ("SKU", some "S")]].map (fun r =>
            if skipMatches ⟨"7", some "S", "2026-02-03"⟩ r then
              dbSet r [("SKIP" ++ toString i, some "2026-02-03")]
            else r)
      ∧ dbGet (dbSet [("ORDER ID", some "7"), ("SKU", some "S")]
          [("SKIP" ++ toString i, some "2026-02-03")]) ("SKIP" ++ toString i) =
          some "2026-02-03")
    ∧ (firstUnusedSkip [("ORDER ID", some "7"), ("SKU", some "S")] = none →
        (skip_order [[("ORDER ID", some "7"), ("SKU", some "S")]]
          ⟨"7", some "S", "2026-02-03"⟩).2 = SkipResult.capacityFull
        ∧ (skip_order [[("ORDER ID", some "7"), ("SKU", some "S")]]
            ⟨"7", some "S", "2026-02-03"⟩).1 =
            [[("ORDER ID", some "7"), ("SKU", some "S")]]) :=
  C8_skip_append [[("ORDER ID", some "7"), ("SKU", some "S")]]
    ⟨"7", some "S", "2026-02-03"⟩ [("ORDER ID", some "7"), ("SKU", some "S")] (by decide)

/-- C10: when `skip_order` is called without a SKU and several stored rows
share the ORDER ID, the slot is chosen by inspecting only the first fetched
row, but the update writes the date into that same slot on *every* row
whose ORDER ID matches — the third conjunct holds with no assumption on the
slot's previous content, so an already-occupied slot of a non-inspected row
is overwritten. -/
theorem C10_skip_multirow (store : List DbRow) (u : SkipUpdate) (row : DbRow) (i : Nat)
    (hsku : u.sku = none)
    (hrow : store.find? (skipMatches u) = some row)
    (hslot : firstUnusedSkip row = some i) :
    (skip_order store u).1 = store.map (fun r =>
        if skipMatches u r then dbSet r [("SKIP" ++ toString i, some u.skip_date)] else r)
    ∧ (∀ r : DbRow, dbGet r "ORDER ID" = some u.order_id → skipMatches u r = true)
    ∧ (∀ r : DbRow,
        dbGet (dbSet r [("SKIP" ++ toString i, some u.skip_date)]) ("SKIP" ++ toString i) =
          some u.skip_date) := by
  unfold skip_order
  rw [hrow]
  dsimp only
  rw [hslot]
  dsimp only
  refine ⟨rfl, fun r hr => ?_, fun r => ?_⟩
  · unfold skipMatches
    rw [hsku, hr]
    simp
  · rw [dbGet_dbSet]
    simp [List.lookup]

/-- Witness for C10: two rows share ORDER ID 7; the slot (SKIP1) is chosen
from the first row, and the second row's SKIP1 — already holding
`2026-01-01` — is overwritten with the new date. -/
theorem C10_skip_multirow_witness :
    (skip_order
        [[("ORDER ID", some "7"), ("SKU", some "A")],
         [("ORDER ID", some "7"), ("SKU", some "B"), ("SKIP1", some "2026-01-01")]]
        ⟨"7", none, "2026-02-03"⟩).1 =
      [[("ORDER ID", some "7"), ("SKU", some "A")],
       [("ORDER ID", some "7"), ("SKU", some "B"), ("SKIP1", some "2026-01-01")]].map
        (fun r => if skipMatches ⟨"7", none, "2026-02-03"⟩ r then
            dbSet r [("SKIP" ++ toString 1, some "2026-02-03")]
          else r)
    ∧ dbGet (dbSet [("ORDER ID", some "7"), ("SKU", some "B"), ("SKIP1", some "2026-01-01")]
        [("SKIP" ++ toString 1, some "2026-02-03")]) ("SKIP" ++ toString 1) =
        some "2026-02-03" := by
  have h := C10_skip_multirow
    [[("ORDER ID", some "7"), ("SKU", some "A")],
     [("ORDER ID", some "7"), ("SKU", some "B"), ("SKIP1", some "2026-01-01")]]
    ⟨"7", none, "2026-02-03"⟩ [("ORDER ID", some "7"), ("SKU", some "A")] 1
    rfl (by decide) (by decide)
  exact ⟨h.1, h.2.2 _⟩

/-! ## Batch-processing isolation lemmas -/


def rowGuardPass (row : InRow) : Bool := !row.isEmpty && !(rowOid row == "")

def rowGuardPassMain (row : InRow) : Bool :=
  !row.isEmpty &&
    (match inGet row "ORDER ID" with
     | some s => !(s == "")
     | none => false)

lemma upload_row_step_cross (b : Bool) (store : List DbRow) (t1 t2 : UploadTally) (row : InRow) :
    (upload_row_step b (store, t1) row).1 = (upload_row_step b (store, t2) row).1
    ∧ (upload_row_step b (store, t1) row).2.inserted + t2.inserted =
        (upload_row_step b (store, t2) row).2.inserted + t1.inserted
    ∧ (upload_row_step b (store, t1) row).2.updated + t2.updated =
        (upload_row_step b (store, t2) row).2.updated + t1.updated
    ∧ (upload_row_step b (store, t1) row).2.skipped + t2.skipped =
        (upload_row_step b (store, t2) row).2.skipped + t1.skipped
    ∧ (upload_row_step b (store, t1) row).2.errors + t2.errors =
        (upload_row_step b (store, t2) row).2.errors + t1.errors := by
  unfold upload_row_step
  dsimp only
  by_cases h1 : row.isEmpty
  · simp [h1]; omega
  · simp only [h1, if_false]
    by_cases h2 : rowOid row = ""
    · simp [h2]; omega
    · simp only [h2, if_false]
      cases b with
      | true => simp; omega
      | false =>
        simp only [if_false, Bool.false_eq_true]
        cases findByKey store (rowOid row) (rowSku row) with
        | none => simp; omega
        | some ex =>
          by_cases h3 : isDuplicate (rowParams row) ex
          · simp [h3]; omega
          · simp only [h3, if_false, Bool.false_eq_true]
            by_cases h4 : (nonKeyParams (rowParams row)).isEmpty
            · simp [h4]; omega
            · simp [h4]; omega

lemma upload_row_step_main_cross (b : Bool) (store : List DbRow) (t1 t2 : UploadTally)
    (row : InRow) :
    (upload_row_step_main b (store, t1) row).1 = (upload_row_step_main b (store, t2) row).1
    ∧ (upload_row_step_main b (store, t1) row).2.inserted + t2.inserted =
        (upload_row_step_main b (store, t2) row).2.inserted + t1.inserted
    ∧ (upload_row_step_main b (store, t1) row).2.updated + t2.updated =
        (upload_row_step_main b (store, t2) row).2.updated + t1.updated
    ∧ (upload_row_step_main b (store, t1) row).2.skipped + t2.skipped =
        (upload_row_step_main b (store, t2) row).2.skipped + t1.skipped
    ∧ (upload_row_step_main b (store, t1) row).2.errors + t2.errors =
        (upload_row_step_main b (store, t2) row).2.errors + t1.errors := by
  unfold upload_row_step_main
  dsimp only
  by_cases h1 : row.isEmpty
  · simp [h1]; omega
  · simp only [h1, if_false]
    cases hoid : inGet row "ORDER ID" with
    | none => simp; omega
    | some oid =>
      by_cases h2 : oid = ""
      · simp [h2]; omega
      · simp only [h2, if_false]
        cases b with
        | true => simp; omega
        | false =>
          simp only [if_false, Bool.false_eq_true]
          cases (match inGet row "SKU" with
                 | some s =>
                   store.find? (fun r => dbGet r "ORDER ID" = some oid && dbGet r "SKU" = some s)
                 | none => store.find? (fun r => dbGet r "ORDER ID" = some oid)) with
          | none => simp; omega
          | some ex =>
            by_cases h3 : isDuplicate (rowParams row) ex
            · simp [h3]; omega
            · simp only [h3, if_false, Bool.false_eq_true]
              by_cases h4 : (nonKeyParams (rowParams row)).isEmpty
              · simp [h4]; omega
              · simp [h4]; omega

lemma upload_row_step_fail_pass (store : List DbRow) (t : UploadTally) (row : InRow)
    (h : rowGuardPass row = true) :
    upload_row_step true (store, t) row = (store, { t with errors := t.errors + 1 }) := by
  unfold rowGuardPass at h
  unfold upload_row_step
  dsimp only
  rw [Bool.and_eq_true] at h
  obtain ⟨h1, h2⟩ := h
  rw [Bool.not_eq_true'] at h1
  rw [if_neg (by simp [h1])]
  rw [if_neg (by simpa using h2)]
  rfl

lemma upload_row_step_fail_skip (store : List DbRow) (t : UploadTally) (row : InRow)
    (h : rowGuardPass row = false) :
    upload_row_step true (store, t) row = (store, t) := by
  unfold rowGuardPass at h
  unfold upload_row_step
  dsimp only
  by_cases h1 : row.isEmpty
  · simp [h1]
  · simp only [h1, if_false]
    rw [Bool.and_eq_false_iff] at h
    cases h with
    | inl hx => rw [Bool.not_eq_false'] at hx; rw [hx] at h1; exact absurd rfl h1
    | inr hx =>
      rw [Bool.not_eq_false'] at hx
      rw [beq_iff_eq] at hx
      simp [hx]

lemma foldl_cross
    (g : Bool → List DbRow × UploadTally → InRow → List DbRow × UploadTally)
    (hcross : ∀ b store t1 t2 row,
      (g b (store, t1) row).1 = (g b (store, t2) row).1
      ∧ (g b (store, t1) row).2.inserted + t2.inserted =
          (g b (store, t2) row).2.inserted + t1.inserted
      ∧ (g b (store, t1) row).2.updated + t2.updated =
          (g b (store, t2) row).2.updated + t1.updated
      ∧ (g b (store, t1) row).2.skipped + t2.skipped =
          (g b (store, t2) row).2.skipped + t1.skipped
      ∧ (g b (store, t1) row).2.errors + t2.errors =
          (g b (store, t2) row).2.errors + t1.errors)
    (f : InRow → Bool) :
    ∀ (rows : List InRow) (store : List DbRow) (t1 t2 : UploadTally),
      (rows.foldl (fun st row => g (f row) st row) (store, t1)).1 =
        (rows.foldl (fun st row => g (f row) st row) (store, t2)).1
      ∧ (rows.foldl (fun st row => g (f row) st row) (store, t1)).2.inserted + t2.inserted =
          (rows.foldl (fun st row => g (f row) st row) (store, t2)).2.inserted + t1.inserted
      ∧ (rows.foldl (fun st row => g (f row) st row) (store, t1)).2.updated + t2.updated =
          (rows.foldl (fun st row => g (f row) st row) (store, t2)).2.updated + t1.updated
      ∧ (rows.foldl (fun st row => g (f row) st row) (store, t1)).2.skipped + t2.skipped =
          (rows.foldl (fun st row => g (f row) st row) (store, t2)).2.skipped + t1.skipped
      ∧ (rows.foldl (fun st row => g (f row) st row) (store, t1)).2.errors + t2.errors =
          (rows.foldl (fun st row => g (f row) st row) (store, t2)).2.errors + t1.errors := by
  intro rows
  induction rows with
  | nil =>
    intro store t1 t2
    simp [Nat.add_comm]
  | cons row rest ih =>
    intro store t1 t2
    simp only [List.foldl_cons]
    obtain ⟨hs, hi, hu, hk, he⟩ := hcross (f row) store t1 t2 row
    have h1 : g (f row) (store, t1) row =
        ((g (f row) (store, t1) row).1, (g (f row) (store, t1) row).2) := rfl
    have h2 : g (f row) (store, t2) row =
        ((g (f row) (store, t2) row).1, (g (f row) (store, t2) row).2) := rfl
    rw [h1, h2, hs]
    obtain ⟨ihs, ihi, ihu, ihk, ihe⟩ :=
      ih (g (f row) (store, t2) row).1 (g (f row) (store, t1) row).2
        (g (f row) (store, t2) row).2
    exact ⟨ihs, by omega, by omega, by omega, by omega⟩

lemma foldl_filter_isolated
    (g : Bool → List DbRow × UploadTally → InRow → List DbRow × UploadTally)
    (guard : InRow → Bool)
    (hcross : ∀ b store t1 t2 row,
      (g b (store, t1) row).1 = (g b (store, t2) row).1
      ∧ (g b (store, t1) row).2.inserted + t2.inserted =
          (g b (store, t2) row).2.inserted + t1.inserted
      ∧ (g b (store, t1) row).2.updated + t2.updated =
          (g b (store, t2) row).2.updated + t1.updated
      ∧ (g b (store, t1) row).2.skipped + t2.skipped =
          (g b (store, t2) row).2.skipped + t1.skipped
      ∧ (g b (store, t1) row).2.errors + t2.errors =
          (g b (store, t2) row).2.errors + t1.errors)
    (hfail_pass : ∀ store t row, guard row = true →
      g true (store, t) row = (store, { t with errors := t.errors + 1 }))
    (hfail_skip : ∀ store t row, guard row = false →
      g true (store, t) row = (store, t))
    (f : InRow → Bool) :
    ∀ (rows : List InRow) (store : List DbRow) (t : UploadTally),
      (rows.foldl (fun st row => g (f row) st row) (store, t)).1 =
        ((rows.filter (fun r => !(f r))).foldl (fun st row => g false st row) (store, t)).1
      ∧ (rows.foldl (fun st row => g (f row) st row) (store, t)).2.inserted =
          ((rows.filter (fun r => !(f r))).foldl (fun st row => g false st row) (store, t)).2.inserted
      ∧ (rows.foldl (fun st row => g (f row) st row) (store, t)).2.updated =
          ((rows.filter (fun r => !(f r))).foldl (fun st row => g false st row) (store, t)).2.updated
      ∧ (rows.foldl (fun st row => g (f row) st row) (store, t)).2.skipped =
          ((rows.filter (fun r => !(f r))).foldl (fun st row => g false st row) (store, t)).2.skipped
      ∧ (rows.foldl (fun st row => g (f row) st row) (store, t)).2.errors =
          ((rows.filter (fun r => !(f r))).foldl (fun st row => g false st row) (store, t)).2.errors
            + rows.countP (fun r => guard r && f r) := by
  intro rows
  induction rows with
  | nil => intro store t; simp
  | cons row rest ih =>
    intro store t
    by_cases hf : f row
    · have hfilter : (row :: rest).filter (fun r => !(f r)) = rest.filter (fun r => !(f r)) := by
        simp [List.filter_cons, hf]
      rw [hfilter]
      simp only [List.foldl_cons]
      by_cases hg : guard row
      · have hcount : (row :: rest).countP (fun r => guard r && f r) =
            rest.countP (fun r => guard r && f r) + 1 := by
          rw [List.countP_cons]
          simp [hg, hf]
        rw [hf, hfail_pass store t row hg]
        obtain ⟨cs, ci, cu, ck, ce⟩ := foldl_cross g hcross f rest store
          { t with errors := t.errors + 1 } t
        obtain ⟨is1, ii, iu, ik, ie⟩ := ih store t
        rw [hcount]
        simp only at ci cu ck ce
        refine ⟨by rw [cs, is1], by omega, by omega, by omega, by omega⟩
      · have hcount : (row :: rest).countP (fun r => guard r && f r) =
            rest.countP (fun r => guard r && f r) := by
          rw [List.countP_cons]
          simp [hg]
        rw [hf, hfail_skip store t row (Bool.eq_false_iff.mpr hg)]
        obtain ⟨is1, ii, iu, ik, ie⟩ := ih store t
        rw [hcount]
        refine ⟨is1, by omega, by omega, by omega, by omega⟩
    · have hf' : f row = false := Bool.eq_false_iff.mpr hf
      have hfilter : (row :: rest).filter (fun r => !(f r)) =
          row :: rest.filter (fun r => !(f r)) := by
        simp [List.filter_cons, hf']
      rw [hfilter]
      simp only [List.foldl_cons, hf']
      have hcount : (row :: rest).countP (fun r => guard r && f r) =
          rest.countP (fun r => guard r && f r) := by
        rw [List.countP_cons]
        simp [hf']
      rw [hcount]
      have hpair : g false (store, t) row =
          ((g false (store, t) row).1, (g false (store, t) row).2) := rfl
      rw [hpair]
      exact ih (g false (store, t) row).1 (g false (store, t) row).2

lemma upload_row_step_main_fail_pass (store : List DbRow) (t : UploadTally) (row : InRow)
    (h : rowGuardPassMain row = true) :
    upload_row_step_main true (store, t) row = (store, { t with errors := t.errors + 1 }) := by
  unfold rowGuardPassMain at h
  unfold upload_row_step_main
  dsimp only
  rw [Bool.and_eq_true] at h
  obtain ⟨h1, h2⟩ := h
  rw [Bool.not_eq_true'] at h1
  rw [if_neg (by simp [h1])]
  cases hoid : inGet row "ORDER ID" with
  | none => rw [hoid] at h2; simp at h2
  | some s =>
    rw [hoid] at h2
    rw [Bool.not_eq_true'] at h2
    rw [beq_eq_false_iff_ne] at h2
    dsimp only
    rw [if_neg h2]
    rfl

lemma upload_row_step_main_fail_skip (store : List DbRow) (t : UploadTally) (row : InRow)
    (h : rowGuardPassMain row = false) :
    upload_row_step_main true (store, t) row = (store, t) := by
  unfold rowGuardPassMain at h
  unfold upload_row_step_main
  dsimp only
  by_cases h1 : row.isEmpty
  · simp [h1]
  · simp only [h1, if_false]
    rw [Bool.and_eq_false_iff] at h
    cases h with
    | inl hx => rw [Bool.not_eq_false'] at hx; rw [hx] at h1; exact absurd rfl h1
    | inr hx =>
      cases hoid : inGet row "ORDER ID" with
      | none => rfl
      | some s =>
        rw [hoid] at hx
        rw [Bool.not_eq_false'] at hx
        rw [beq_iff_eq] at hx
        simp [hx]

/-- C6 (amended): in both batch upload endpoints every row is processed
independently — a failing row is counted as an error and acts as a no-op,
so the final store and the other tallies are exactly those of the batch
with the failing rows removed, and the batch always completes.  The newer
endpoint reports all four tallies (inserted, updated, skipped, errors) but
commits once at the end of the batch; the older endpoint commits after each
row but its response carries no `skipped` entry. -/
theorem C6_batch_processing (store : List DbRow) (rows : List InRow) (f : InRow → Bool) :
    (upload_master_data store rows f).1 =
      (upload_master_data store (rows.filter (fun r => !(f r))) (fun _ => false)).1
    ∧ (upload_master_data store rows f).2.inserted =
        (upload_master_data store (rows.filter (fun r => !(f r))) (fun _ => false)).2.inserted
    ∧ (upload_master_data store rows f).2.updated =
        (upload_master_data store (rows.filter (fun r => !(f r))) (fun _ => false)).2.updated
    ∧ (upload_master_data store rows f).2.skipped =
        (upload_master_data store (rows.filter (fun r => !(f r))) (fun _ => false)).2.skipped
    ∧ (upload_master_data store rows f).2.errors =
        (upload_master_data store (rows.filter (fun r => !(f r))) (fun _ => false)).2.errors
          + rows.countP (fun r => rowGuardPass r && f r)
    ∧ (upload_master_data_response (upload_master_data store rows f).2).map Prod.fst =
        ["status", "inserted", "updated", "skipped", "errors"]
    ∧ (upload_master_data_main store rows f).1 =
        (upload_master_data_main store (rows.filter (fun r => !(f r))) (fun _ => false)).1
    ∧ (upload_master_data_main store rows f).2.errors =
        (upload_master_data_main store (rows.filter (fun r => !(f r))) (fun _ => false)).2.errors
          + rows.countP (fun r => rowGuardPassMain r && f r)
    ∧ (upload_master_data_main_response (upload_master_data_main store rows f).2).map Prod.fst =
        ["status", "inserted", "updated", "errors"] := by
  have hr := foldl_filter_isolated upload_row_step rowGuardPass
    (fun b store t1 t2 row => upload_row_step_cross b store t1 t2 row)
    upload_row_step_fail_pass upload_row_step_fail_skip f rows store emptyTally
  have hm := foldl_filter_isolated upload_row_step_main rowGuardPassMain
    (fun b store t1 t2 row => upload_row_step_main_cross b store t1 t2 row)
    upload_row_step_main_fail_pass upload_row_step_main_fail_skip f rows store emptyTally
  obtain ⟨a1, a2, a3, a4, a5⟩ := hr
  obtain ⟨b1, b2, b3, b4, b5⟩ := hm
  exact ⟨a1, a2, a3, a4, a5, rfl, b1, b5, rfl⟩

/-- C6 counterexample: the per-row-commit upload endpoint
(`src/backend/app/main.py`), fed a batch whose single row exactly
duplicates the stored row, skips it without counting and returns a body
with no `skipped` tally at all — refuting the claim that the batch call
returns per-row tallies of inserted, updated, skipped and errored rows. -/
theorem C6_counterexample :
    List.lookup "skipped"
      (upload_master_data_main_response
        (upload_master_data_main
          [[("ORDER ID", some "1"), ("NAME", some "A")]]
          [[("ORDER ID", some "1"), ("NAME", some "A")]]
          (fun _ => false)).2) = none
    ∧ (upload_master_data_main
        [[("ORDER ID", some "1"), ("NAME", some "A")]]
        [[("ORDER ID", some "1"), ("NAME", some "A")]]
        (fun _ => false)).2 = ⟨0, 0, 0, 0⟩ :=
  ⟨by decide, by decide⟩

/-- C9 (amended): in the newer upload endpoint the no-SKU key is
`"SKU" IS NULL`, which matches only stored rows whose SKU cell is NULL —
distinct from every concrete SKU value — so a batch row without a SKU can
match and be deduplicated only against stored rows that themselves have no
SKU. -/
theorem C9_router_no_sku (store : List DbRow) (oid : String) :
    (∀ r, findByKey store oid none = some r →
      dbGet r "SKU" = none ∧ dbGet r "ORDER ID" = some oid)
    ∧ (∀ s r, findByKey store oid (some s) = some r → dbGet r "SKU" = some s) := by
  constructor
  · intro r hr
    have hp := List.find?_some hr
    unfold matchesKey at hp
    rw [Bool.and_eq_true] at hp
    obtain ⟨hp1, hp2⟩ := hp
    rw [decide_eq_true_iff] at hp1 hp2
    exact ⟨hp2, hp1⟩
  · intro s r hr
    have hp := List.find?_some hr
    unfold matchesKey at hp
    rw [Bool.and_eq_true] at hp
    obtain ⟨hp1, hp2⟩ := hp
    rw [decide_eq_true_iff] at hp2
    exact hp2

/-- C9 counterexample: in the older upload endpoint a batch row with no
SKU falls back to matching by ORDER ID alone: against a store whose only
row has the concrete SKU `A`, the no-SKU batch row matches it and
overwrites its NAME — refuting the claim that a row without a SKU can
never match or update a stored row with a concrete SKU. -/
theorem C9_counterexample :
    ((upload_master_data_main
        [[("ORDER ID", some "1"), ("SKU", some "A"), ("NAME", some "old")]]
        [[("ORDER ID", some "1"), ("NAME", some "new")]]
        (fun _ => false)).1.map (fun r => (dbGet r "SKU", dbGet r "NAME")) =
      [(some "A", some "new")])
    ∧ (upload_master_data_main
        [[("ORDER ID", some "1"), ("SKU", some "A"), ("NAME", some "old")]]
        [[("ORDER ID", some "1"), ("NAME", some "new")]]
        (fun _ => false)).2.updated = 1 :=
  ⟨by decide, by decide⟩

/-- Witness for the amended C9: with a store holding one row with SKU `A`
and one with NULL SKU (both ORDER ID 1), the no-SKU lookup returns the
NULL-SKU row. -/
theorem C9_router_no_sku_witness :
    dbGet [("ORDER ID", some "1"), ("SKU", none), ("X", some "v")] "SKU" = none
    ∧ dbGet [("ORDER ID", some "1"), ("SKU", none), ("X", some "v")] "ORDER ID" = some "1" :=
  (C9_router_no_sku
    [[("ORDER ID", some "1"), ("SKU", some "A")],
     [("ORDER ID", some "1"), ("SKU", none), ("X", some "v")]] "1").1
    [("ORDER ID", some "1"), ("SKU", none), ("X", some "v")] (by decide)

/-! ## Reconciler idempotence (C5) -/

/-- A well-formed batch row: its ORDER ID cell is a non-empty,
already-stripped string (so the key the lookup uses equals the value the
INSERT writes); its SKU cell, when present, is either null, empty, or an
already-stripped string other than the literal `None` (so the normalised
key round-trips through the store); and its column names are distinct (a
Python dict). -/
def wellFormedRow (row : InRow) : Prop :=
  (∃ s, List.lookup "ORDER ID" row = some (some s) ∧ pyStrip s = s ∧ s ≠ "")
  ∧ (match List.lookup "SKU" row with
     | none => True
     | some none => True
     | some (some s) => pyStrip s = s ∧ s ≠ "None")
  ∧ (row.map Prod.fst).Nodup

/-- A batch row is settled in a store when its key lookup finds a row that
the exact-duplicate check accepts — processing such a row is a counted
no-op. -/
def settled (store : List DbRow) (row : InRow) : Prop :=
  ∃ ex, findByKey store (rowOid row) (rowSku row) = some ex
    ∧ isDuplicate (rowParams row) ex = true

lemma wf_isEmpty (row : InRow) (h : wellFormedRow row) : row.isEmpty = false := by
  obtain ⟨⟨s, hs, _, _⟩, _, _⟩ := h
  cases row with
  | nil => simp [List.lookup] at hs
  | cons kv rest => rfl

lemma wf_oid (row : InRow) (h : wellFormedRow row) :
    rowOid row ≠ "" ∧ List.lookup "ORDER ID" row = some (some (rowOid row)) := by
  obtain ⟨⟨s, hs, hstrip, hne⟩, _, _⟩ := h
  have hoid : rowOid row = s := by
    unfold rowOid inGetD
    rw [hs]
    unfold pyStr
    exact hstrip
  rw [hoid]
  exact ⟨hne, hs⟩

lemma lookup_map_toParam (row : InRow) (k : String) :
    List.lookup k (rowParams row) = (List.lookup k row).map toParam := by
  unfold rowParams
  induction row with
  | nil => rfl
  | cons kv rest ih =>
    cases kv with
    | mk k1 v1 =>
      by_cases hk : k = k1
      · subst hk; simp [List.lookup]
      · have hb : (k == k1) = false := beq_eq_false_iff_ne.mpr hk
        simp only [List.map, List.lookup, hb]
        exact ih

lemma lookup_self (l : List (String × Option String)) (hnodup : (l.map Prod.fst).Nodup) :
    ∀ kv ∈ l, List.lookup kv.1 l = some kv.2 := by
  induction l with
  | nil => intro kv hkv; simp at hkv
  | cons hd rest ih =>
    intro kv hkv
    cases hd with
    | mk k1 v1 =>
      simp only [List.map, List.nodup_cons] at hnodup
      obtain ⟨hnotin, hnd⟩ := hnodup
      cases hkv with
      | head => simp [List.lookup]
      | tail _ hmem =>
        have hk : kv.1 ≠ k1 := by
          intro hcon
          apply hnotin
          rw [← hcon]
          exact List.mem_map_of_mem Prod.fst hmem
        have hb : (kv.1 == k1) = false := beq_eq_false_iff_ne.mpr hk
        simp only [List.lookup, hb]
        exact ih hnd kv hmem

lemma rowParams_keys (row : InRow) :
    (rowParams row).map Prod.fst = row.map Prod.fst := by
  unfold rowParams
  induction row with
  | nil => rfl
  | cons kv rest ih => simp [ih]

lemma toParam_some_ne (s : String) (h : s ≠ "") : toParam (some s) = some s := by
  unfold toParam
  split
  · next heq => exact absurd (Option.some.inj heq) h
  · rfl

lemma key_of_params (row : InRow) (h : wellFormedRow row) :
    matchesKey (rowOid row) (rowSku row) (rowParams row) = true := by
  obtain ⟨hne, hlook⟩ := wf_oid row h
  have hoidp : dbGet (rowParams row) "ORDER ID" = some (rowOid row) := by
    unfold dbGet
    rw [lookup_map_toParam, hlook]
    dsimp only [Option.map]
    rw [toParam_some_ne _ hne]
  unfold matchesKey
  rw [Bool.and_eq_true]
  refine ⟨by rw [decide_eq_true_iff]; exact hoidp, ?_⟩
  obtain ⟨_, hsku, _⟩ := h
  cases hl : List.lookup "SKU" row with
  | none =>
    have hsku1 : rowSku row = none := by
      unfold rowSku inGetD
      rw [hl]
      decide
    have hdb : dbGet (rowParams row) "SKU" = none := by
      unfold dbGet
      rw [lookup_map_toParam, hl]
      rfl
    rw [hsku1]
    simp [hdb]
  | some v =>
    cases v with
    | none =>
      have hsku1 : rowSku row = none := by
        unfold rowSku inGetD
        rw [hl]
        decide
      have hdb : dbGet (rowParams row) "SKU" = none := by
        unfold dbGet
        rw [lookup_map_toParam, hl]
        rfl
      rw [hsku1]
      simp [hdb]
    | some s =>
      rw [hl] at hsku
      obtain ⟨hstrip, hnn⟩ := hsku
      by_cases hse : s = ""
      · subst hse
        have hsku1 : rowSku row = none := by
          unfold rowSku inGetD
          rw [hl]
          decide
        have hdb : dbGet (rowParams row) "SKU" = none := by
          unfold dbGet
          rw [lookup_map_toParam, hl]
          rfl
        rw [hsku1]
        simp [hdb]
      · have hsku1 : rowSku row = some s := by
          unfold rowSku inGetD
          rw [hl]
          simp only [pyStr]
          rw [hstrip]
          rw [if_neg (by simp [hnn, hse])]
        have hdb : dbGet (rowParams row) "SKU" = some s := by
          unfold dbGet
          rw [lookup_map_toParam, hl]
          dsimp only [Option.map]
          rw [toParam_some_ne _ hse]
        rw [hsku1]
        simp [hdb]

lemma isDuplicate_self (row : InRow) (hnodup : (row.map Prod.fst).Nodup) :
    isDuplicate (rowParams row) (rowParams row) = true := by
  unfold isDuplicate
  rw [List.all_eq_true]
  intro kv hkv
  have hkeys : ((rowParams row).map Prod.fst).Nodup := by
    rw [rowParams_keys]; exact hnodup
  have hlook := lookup_self (rowParams row) hkeys kv hkv
  have hdb : dbGet (rowParams row) kv.1 = kv.2 := by
    unfold dbGet
    rw [hlook]
  rw [hdb]
  simp

lemma nonKeyParams_empty_dup (params : List (String × Option String)) (ex : DbRow)
    (h : (nonKeyParams params).isEmpty = true) : isDuplicate params ex = true := by
  unfold nonKeyParams at h
  rw [List.isEmpty_iff] at h
  rw [List.filter_eq_nil_iff] at h
  unfold isDuplicate
  rw [List.all_eq_true]
  intro kv hkv
  have hx := h kv hkv
  rw [Bool.not_eq_true, Bool.not_eq_false'] at hx
  rw [hx]
  simp

lemma find?_append_some {α : Type} (p : α → Bool) (l1 l2 : List α) (x : α)
    (h : l1.find? p = some x) : (l1 ++ l2).find? p = some x := by
  induction l1 with
  | nil => simp [List.find?] at h
  | cons a rest ih =>
    rw [List.find?] at h
    by_cases hp : p a
    · rw [hp] at h
      simp at h
      subst h
      simp [List.find?, hp]
    · rw [Bool.eq_false_iff.mpr hp] at h
      simp only [List.cons_append, List.find?, Bool.eq_false_iff.mpr hp]
      exact ih h

lemma find?_append_none {α : Type} (p : α → Bool) (l1 l2 : List α)
    (h : l1.find? p = none) : (l1 ++ l2).find? p = l2.find? p := by
  induction l1 with
  | nil => rfl
  | cons a rest ih =>
    rw [List.find?] at h
    by_cases hp : p a
    · rw [hp] at h; simp at h
    · rw [Bool.eq_false_iff.mpr hp] at h
      simp only [List.cons_append, List.find?, Bool.eq_false_iff.mpr hp]
      exact ih h

/-- Under the row guards and with no exception, the upload step reduces to
the key lookup and duplicate check. -/
lemma upload_row_step_wf (row : InRow) (store : List DbRow) (t : UploadTally)
    (h : wellFormedRow row) :
    upload_row_step false (store, t) row =
      (match findByKey store (rowOid row) (rowSku row) with
       | some ex =>
         if isDuplicate (rowParams row) ex then (store, { t with skipped := t.skipped + 1 })
         else if (nonKeyParams (rowParams row)).isEmpty then (store, t)
         else (store, { t with errors := t.errors + 1 })
       | none => (store ++ [rowParams row], { t with inserted := t.inserted + 1 })) := by
  unfold upload_row_step
  dsimp only
  rw [if_neg (by simp [wf_isEmpty row h])]
  rw [if_neg (by simpa using (wf_oid row h).1)]
  rw [if_neg (by simp)]

lemma upload_step_errors_ge (b : Bool) (store : List DbRow) (t : UploadTally) (row : InRow) :
    t.errors ≤ (upload_row_step b (store, t) row).2.errors := by
  unfold upload_row_step
  dsimp only
  by_cases h1 : row.isEmpty
  · simp [h1]
  · simp only [h1, if_false]
    by_cases h2 : rowOid row = ""
    · simp [h2]
    · simp only [h2, if_false]
      cases b with
      | true => simp
      | false =>
        simp only [if_false, Bool.false_eq_true]
        cases findByKey store (rowOid row) (rowSku row) with
        | none => simp
        | some ex =>
          by_cases h3 : isDuplicate (rowParams row) ex
          · simp [h3]
          · simp only [h3, if_false, Bool.false_eq_true]
            by_cases h4 : (nonKeyParams (rowParams row)).isEmpty
            · simp [h4]
            · simp [h4]

lemma upload_fold_errors_ge (f : InRow → Bool) :
    ∀ (rows : List InRow) (store : List DbRow) (t : UploadTally),
      t.errors ≤ (rows.foldl (fun st row => upload_row_step (f row) st row) (store, t)).2.errors := by
  intro rows
  induction rows with
  | nil => intro store t; exact Nat.le_refl _
  | cons row rest ih =>
    intro store t
    simp only [List.foldl_cons]
    have h1 := upload_step_errors_ge (f row) store t row
    have hpair : upload_row_step (f row) (store, t) row =
        ((upload_row_step (f row) (store, t) row).1,
         (upload_row_step (f row) (store, t) row).2) := rfl
    rw [hpair]
    exact Nat.le_trans h1 (ih _ _)

/-- First run: with well-formed rows, no exceptions and an error-free
outcome, every processed row ends settled in the resulting store (its key
lookup finds a row that the duplicate check accepts), and previously
settled rows stay settled (the store only ever grows by appends). -/
lemma upload_run1_settles (f : InRow → Bool) :
    ∀ (rows : List InRow) (store : List DbRow) (t : UploadTally),
      (∀ r ∈ rows, wellFormedRow r) →
      (∀ r ∈ rows, f r = false) →
      (rows.foldl (fun st row => upload_row_step (f row) st row) (store, t)).2.errors =
        t.errors →
      (∀ r' : InRow, settled store r' →
        settled (rows.foldl (fun st row => upload_row_step (f row) st row) (store, t)).1 r')
      ∧ (∀ r ∈ rows,
          settled (rows.foldl (fun st row => upload_row_step (f row) st row) (store, t)).1 r) := by
  intro rows
  induction rows with
  | nil =>
    intro store t _ _ _
    exact ⟨fun r' hs => hs, fun r hr => absurd hr (List.not_mem_nil r)⟩
  | cons row rest ih =>
    intro store t hwf hnf herr
    have hfrow : f row = false := hnf row (List.mem_cons_self row rest)
    have hwfrow : wellFormedRow row := hwf row (List.mem_cons_self row rest)
    have hwfrest : ∀ r ∈ rest, wellFormedRow r := fun r hr => hwf r (List.mem_cons_of_mem _ hr)
    have hnfrest : ∀ r ∈ rest, f r = false := fun r hr => hnf r (List.mem_cons_of_mem _ hr)
    simp only [List.foldl_cons, hfrow] at herr ⊢
    rw [upload_row_step_wf row store t hwfrow] at herr ⊢
    cases hfind : findByKey store (rowOid row) (rowSku row) with
    | some ex =>
      rw [hfind] at herr
      dsimp only at herr ⊢
      by_cases hdup : isDuplicate (rowParams row) ex
      · rw [if_pos hdup] at herr ⊢
        obtain ⟨pres, each⟩ := ih store { t with skipped := t.skipped + 1 }
          hwfrest hnfrest herr
        refine ⟨pres, fun r hr => ?_⟩
        cases hr with
        | head => exact pres row ⟨ex, hfind, hdup⟩
        | tail _ hmem => exact each r hmem
      · rw [if_neg hdup] at herr ⊢
        by_cases hemp : (nonKeyParams (rowParams row)).isEmpty
        · exact absurd (nonKeyParams_empty_dup (rowParams row) ex hemp) hdup
        · rw [if_neg (by simpa using hemp)] at herr
          have hge := upload_fold_errors_ge f rest store { t with errors := t.errors + 1 }
          rw [herr] at hge
          simp at hge
    | none =>
      rw [hfind] at herr
      dsimp only at herr ⊢
      have hself : settled (store ++ [rowParams row]) row := by
        refine ⟨rowParams row, ?_, isDuplicate_self row hwfrow.2.2⟩
        unfold findByKey at hfind ⊢
        rw [find?_append_none _ store _ hfind]
        rw [List.find?]
        rw [key_of_params row hwfrow]
      have hpres0 : ∀ r' : InRow, settled store r' → settled (store ++ [rowParams row]) r' := by
        intro r' hs
        obtain ⟨ex', hfind', hdup'⟩ := hs
        exact ⟨ex', find?_append_some _ store _ ex' hfind', hdup'⟩
      obtain ⟨pres, each⟩ := ih (store ++ [rowParams row]) { t with inserted := t.inserted + 1 }
        hwfrest hnfrest herr
      refine ⟨fun r' hs => pres r' (hpres0 r' hs), fun r hr => ?_⟩
      cases hr with
      | head => exact pres row hself
      | tail _ hmem => exact each r hmem

/-- Second run: when every batch row is already settled in the store, each
row is counted as skipped and the store is left untouched. -/
lemma upload_run2_skips (f : InRow → Bool) :
    ∀ (rows : List InRow) (store : List DbRow) (t : UploadTally),
      (∀ r ∈ rows, wellFormedRow r) →
      (∀ r ∈ rows, f r = false) →
      (∀ r ∈ rows, settled store r) →
      rows.foldl (fun st row => upload_row_step (f row) st row) (store, t) =
        (store, { t with skipped := t.skipped + rows.length }) := by
  intro rows
  induction rows with
  | nil => intro store t _ _ _; simp
  | cons row rest ih =>
    intro store t hwf hnf hset
    have hfrow := hnf row (List.mem_cons_self row rest)
    simp only [List.foldl_cons, hfrow]
    rw [upload_row_step_wf row store t (hwf row (List.mem_cons_self row rest))]
    obtain ⟨ex, hfind, hdup⟩ := hset row (List.mem_cons_self row rest)
    rw [hfind]
    dsimp only
    rw [if_pos hdup]
    rw [ih store { t with skipped := t.skipped + 1 }
      (fun r hr => hwf r (List.mem_cons_of_mem _ hr))
      (fun r hr => hnf r (List.mem_cons_of_mem _ hr))
      (fun r hr => hset r (List.mem_cons_of_mem _ hr))]
    cases t with
    | mk a b c d =>
      simp only [List.length_cons, Prod.mk.injEq, UploadTally.mk.injEq, true_and, and_true]
      omega

/-- C5 counterexample: a batch whose single row has the untrimmed ORDER ID
`"1 "` inserts on a fully successful first run (1 inserted, 0 errors) and
then inserts *again* on the second run — the lookup trims the key while the
INSERT stores the raw value, so the claimed universal idempotence fails. -/
theorem C5_counterexample :
    (upload_master_data [] [[("ORDER ID", some "1 ")]] (fun _ => false)).2 =
      { inserted := 1, updated := 0, skipped := 0, errors := 0 }
    ∧ (upload_master_data
        (upload_master_data [] [[("ORDER ID", some "1 ")]] (fun _ => false)).1
        [[("ORDER ID", some "1 ")]] (fun _ => false)).2.inserted = 1 :=
  ⟨by decide, by decide⟩

/-- C5 (amended): for batches of well-formed rows (trimmed non-empty ORDER
ID; SKU absent, null, empty, or trimmed and not the literal `None`; unique
column names), rerunning the newer batch upload immediately after a fully
successful (error-free, exception-free) first run inserts and updates
nothing, counts every row as an exact-duplicate skip, and leaves the store
unchanged. -/
theorem C5_amended (store0 : List DbRow) (rows : List InRow) (f : InRow → Bool)
    (hwf : ∀ r ∈ rows, wellFormedRow r)
    (hnf : ∀ r ∈ rows, f r = false)
    (herr : (upload_master_data store0 rows f).2.errors = 0) :
    (upload_master_data (upload_master_data store0 rows f).1 rows f).2.inserted = 0
    ∧ (upload_master_data (upload_master_data store0 rows f).1 rows f).2.updated = 0
    ∧ (upload_master_data (upload_master_data store0 rows f).1 rows f).2.skipped = rows.length
    ∧ (upload_master_data (upload_master_data store0 rows f).1 rows f).1 =
        (upload_master_data store0 rows f).1 := by
  have hsettled := (upload_run1_settles f rows store0 emptyTally hwf hnf herr).2
  have hrun2 := upload_run2_skips f rows (upload_master_data store0 rows f).1 emptyTally
    hwf hnf hsettled
  unfold upload_master_data
  unfold upload_master_data at hrun2
  rw [hrun2]
  exact ⟨rfl, rfl, Nat.zero_add _, rfl⟩

theorem C5_amended_witness :
    (upload_master_data
        (upload_master_data [] [[("ORDER ID", some "1"), ("NAME", some "A")]]
          (fun _ => false)).1
        [[("ORDER ID", some "1"), ("NAME", some "A")]] (fun _ => false)).2.inserted = 0
    ∧ (upload_master_data
        (upload_master_data [] [[("ORDER ID", some "1"), ("NAME", some "A")]]
          (fun _ => false)).1
        [[("ORDER ID", some "1"), ("NAME", some "A")]] (fun _ => false)).2.updated = 0
    ∧ (upload_master_data
        (upload_master_data [] [[("ORDER ID", some "1"), ("NAME", some "A")]]
          (fun _ => false)).1
        [[("ORDER ID", some "1"), ("NAME", some "A")]] (fun _ => false)).2.skipped =
        ([[("ORDER ID", some "1"), ("NAME", some "A")]] : List InRow).length
    ∧ (upload_master_data
        (upload_master_data [] [[("ORDER ID", some "1"), ("NAME", some "A")]]
          (fun _ => false)).1
        [[("ORDER ID", some "1"), ("NAME", some "A")]] (fun _ => false)).1 =
        (upload_master_data [] [[("ORDER ID", some "1"), ("NAME", some "A")]]
          (fun _ => false)).1 :=
  C5_amended [] [[("ORDER ID", some "1"), ("NAME", some "A")]] (fun _ => false)
    (by
      intro r hr
      rw [List.mem_singleton] at hr
      subst hr
      exact ⟨⟨"1", by decide, by decide, by decide⟩, trivial, by decide⟩)
    (fun r _ => rfl)
    (by decide)
